import Mathlib

/-!
Shallow embedding of `digi/xbee/profile.py` (the XBee profile archive model
and the profile-update orchestrator), together with theorems settling claims
about it.

Conventions: Python integers become `Nat`, bytearrays become `List Nat`,
strings become `String` or `List Char`, and fallible operations return
`Option`.  External collaborators (device I/O, the firmware-flash engine,
the filesystem managers) are abstracted by an oracle `Env` that fixes the
outcome of each collaborator call; the orchestrator's own control flow is
translated faithfully from the source.  Helper routines that live outside
`profile.py` (`digi.xbee.util.utils`, Python builtins) are modelled from the
spec and marked as such in their doc comments.
-/

/-- Setting types from `XBeeSettingType` (profile.py lines 477-535). -/
inductive XBeeSettingType
  | number
  | combo
  | text
  | button
  | noType
deriving DecidableEq, Repr

/-- Text setting formats from `XBeeSettingFormat` (profile.py lines 538-597). -/
inductive XBeeSettingFormat
  | hex
  | ascii
  | ipv4
  | ipv6
  | phone
  | noFormat
deriving DecidableEq, Repr

/-- `XBeeSettingType.get`: tag-to-type lookup (profile.py lines 496-512);
fails with `none` for an unknown tag. -/
def settingTypeGet (tag : String) : Option XBeeSettingType :=
  if tag = "number" then some XBeeSettingType.number
  else if tag = "combo" then some XBeeSettingType.combo
  else if tag = "text" then some XBeeSettingType.text
  else if tag = "button" then some XBeeSettingType.button
  else if tag = "none" then some XBeeSettingType.noType
  else none

/-- `XBeeSettingFormat.get`: tag-to-format lookup (profile.py lines 558-574);
fails with `none` for an unknown tag. -/
def settingFormatGet (tag : String) : Option XBeeSettingFormat :=
  if tag = "HEX" then some XBeeSettingFormat.hex
  else if tag = "ASCII" then some XBeeSettingFormat.ascii
  else if tag = "IPV4" then some XBeeSettingFormat.ipv4
  else if tag = "IPV6" then some XBeeSettingFormat.ipv6
  else if tag = "PHONE" then some XBeeSettingFormat.phone
  else if tag = "none" then some XBeeSettingFormat.noFormat
  else none

/-- Value of one hexadecimal digit character, `none` for a non-hex character. -/
def hexDigitVal (c : Char) : Option Nat :=
  if '0' ≤ c ∧ c ≤ '9' then some (c.toNat - 48)
  else if 'A' ≤ c ∧ c ≤ 'F' then some (c.toNat - 55)
  else if 'a' ≤ c ∧ c ≤ 'f' then some (c.toNat - 87)
  else none

/-- Decode a character list as pairs of hexadecimal digits; `none` on odd
length or a non-hex character. -/
def hexPairsToBytes : List Char → Option (List Nat)
  | [] => some []
  | [_] => none
  | a :: b :: rest =>
    match hexDigitVal a, hexDigitVal b, hexPairsToBytes rest with
    | some x, some y, some bs => some ((16 * x + y) :: bs)
    | _, _, _ => none

/-- Modelled from the spec: `utils.hex_string_to_bytes` ("decode raw as a
hexadecimal string"), which is not part of `profile.py`.  `none` models the
exception raised on a malformed hex string. -/
def hexStringToBytes (s : String) : Option (List Nat) :=
  hexPairsToBytes s.data

/-- Modelled from the spec: UTF-8 encoding of one character (Python
`bytearray(value, 'utf8')` is a builtin, not part of `profile.py`). -/
def charUtf8 (c : Char) : List Nat :=
  let n := c.toNat
  if n < 128 then [n]
  else if n < 2048 then [192 + n / 64, 128 + n % 64]
  else if n < 65536 then [224 + n / 4096, 128 + (n / 64) % 64, 128 + n % 64]
  else [240 + n / 262144, 128 + (n / 4096) % 64, 128 + (n / 64) % 64, 128 + n % 64]

/-- Modelled from the spec: UTF-8 bytes of a string. -/
def utf8Bytes (s : String) : List Nat :=
  s.data.foldr (fun c acc => charUtf8 c ++ acc) []

/-- Modelled from the spec: Python `str.split('.')` (a builtin) on a char
list — split on dots, keeping empty tokens. -/
def splitDotAux : List Char → List Char → List (List Char)
  | [], cur => [cur.reverse]
  | c :: rest, cur =>
    if c = '.' then cur.reverse :: splitDotAux rest []
    else splitDotAux rest (c :: cur)

/-- Modelled from the spec: Python `int(token)` restricted to unsigned
decimal digit strings; `none` models the exception raised otherwise. -/
def parseDecNat (cs : List Char) : Option Nat :=
  if cs ≠ [] ∧ cs.all Char.isDigit then
    some (cs.foldl (fun acc c => 10 * acc + (c.toNat - 48)) 0)
  else none

/-- IPv4 text to bytes: split on `.`, parse each token as a decimal number,
require each octet to fit in a byte (profile.py lines 637-639; Python `int`
and `bytearray` raise otherwise, modelled as `none`). -/
def ipv4Bytes (s : String) : Option (List Nat) :=
  match (splitDotAux s.data []).mapM parseDecNat with
  | some ns => if ns.all (fun n => decide (n < 256)) then some ns else none
  | none => none

/-- Modelled from the spec: Python `str.upper()` on one character (ASCII
range, as used for AT command mnemonics). -/
def pyUpperChar (c : Char) : Char :=
  if 97 ≤ c.toNat ∧ c.toNat ≤ 122 then Char.ofNat (c.toNat - 32) else c

/-- Modelled from the spec: Python `str.upper()`. -/
def pyUpper (s : String) : String :=
  String.mk (s.data.map pyUpperChar)

/-- Result of `XBeeProfileSetting._setting_value_to_bytearray`: either a
byte sequence, the raw string passed through unchanged (the documented
ambiguous fallback), or an encoding error (a raised exception). -/
inductive EncodedValue
  | bytes (bs : List Nat)
  | raw (s : String)
  | err
deriving DecidableEq, Repr

/-- `XBeeProfileSetting._setting_value_to_bytearray` (profile.py lines
623-646).  `ty`/`fm` are `Option` because `XBeeSettingType.get` /
`XBeeSettingFormat.get` can return `None` for unknown tags. -/
def settingValueToBytearray (ty : Option XBeeSettingType)
    (fm : Option XBeeSettingFormat) (value : String) : EncodedValue :=
  if ty = some XBeeSettingType.combo ∨ ty = some XBeeSettingType.number then
    match hexStringToBytes value with
    | some bs => EncodedValue.bytes bs
    | none => EncodedValue.err
  else if ty = some XBeeSettingType.text then
    if fm = some XBeeSettingFormat.ascii ∨ fm = some XBeeSettingFormat.phone then
      EncodedValue.bytes (utf8Bytes value)
    else if fm = some XBeeSettingFormat.hex ∨ fm = some XBeeSettingFormat.noFormat then
      match hexStringToBytes value with
      | some bs => EncodedValue.bytes bs
      | none => EncodedValue.err
    else if fm = some XBeeSettingFormat.ipv4 then
      match ipv4Bytes value with
      | some bs => EncodedValue.bytes bs
      | none => EncodedValue.err
    else if fm = some XBeeSettingFormat.ipv6 ∧ ':' ∈ value.data then
      EncodedValue.bytes (utf8Bytes value)
    else EncodedValue.raw value
  else if ty = some XBeeSettingType.button ∨ ty = some XBeeSettingType.noType then
    EncodedValue.bytes []
  else EncodedValue.raw value

/-- One parsed `XBeeProfileSetting` (profile.py lines 600-646). -/
structure ProfileSettingModel where
  name : String
  type : Option XBeeSettingType
  format : Option XBeeSettingFormat
  value : String
  encoded : EncodedValue
deriving DecidableEq, Repr

/-- `XBeeProfileSetting.__init__`: the encoded value is derived once at
construction (profile.py lines 606-621). -/
def mkProfileSetting (name : String) (ty : Option XBeeSettingType)
    (fm : Option XBeeSettingFormat) (value : String) : ProfileSettingModel :=
  ⟨name, ty, fm, value, settingValueToBytearray ty fm value⟩

/-- One `<setting>` node of the firmware descriptor: command attribute plus
optional `control_type` and `format` child texts (profile.py lines
1009-1018). -/
structure FirmwareSettingElem where
  command : String
  controlType : Option String
  format : Option String
deriving DecidableEq, Repr

/-- Python dict update on an insertion-ordered association list: replace in
place if the key exists, else append (`self._profile_settings.update`). -/
def dictUpdate (l : List (String × ProfileSettingModel)) (k : String)
    (v : ProfileSettingModel) : List (String × ProfileSettingModel) :=
  if l.any (fun p => p.1 = k) then
    l.map (fun p => if p.1 = k then (k, v) else p)
  else l ++ [(k, v)]

/-- Inner loop body of the AT-settings parse (profile.py lines 1009-1026):
for one raw `(command, value)` pair and one firmware `<setting>` node, add a
`ProfileSetting` to the accumulator if and only if the node's command
attribute equals the raw command.  A missing `control_type`/`format` child
defaults the type/format to `NO_TYPE`/`NO_FORMAT`. -/
def applyCatalogEntry (pr : String × String)
    (acc : List (String × ProfileSettingModel))
    (fse : FirmwareSettingElem) : List (String × ProfileSettingModel) :=
  if fse.command = pr.1 then
    let ty : Option XBeeSettingType :=
      match fse.controlType with
      | none => some XBeeSettingType.noType
      | some tag => settingTypeGet tag
    let fm : Option XBeeSettingFormat :=
      match fse.format with
      | none => some XBeeSettingFormat.noFormat
      | some tag => settingFormatGet tag
    dictUpdate acc (pyUpper pr.1) (mkProfileSetting (pyUpper pr.1) ty fm pr.2)
  else acc

/-- The AT-settings section of `XBeeProfile._parse_xml_firmware_file`
(profile.py lines 1003-1026): for every raw setting, scan every firmware
`<setting>` node and record a `ProfileSetting` for each command match. -/
def parseProfileSettings (catalog : List FirmwareSettingElem)
    (raw : List (String × String)) : List (String × ProfileSettingModel) :=
  raw.foldl (fun acc pr => catalog.foldl (applyCatalogEntry pr) acc) []

/-- The instance attributes assigned by `XBeeProfile.__init__` (profile.py
lines 736-761): the set `hasattr` sees on a fully constructed object. -/
def xbeeProfileInitAttrs : List String :=
  ["_profile_file", "_profile_folder", "_profile_xml_file", "_firmware_xml_file",
   "_bootloader_file", "_version", "_flash_firmware_option", "_description",
   "_reset_settings", "_raw_settings", "_profile_settings", "_file_system_path",
   "_remote_file_system_image", "_cellular_firmware_files",
   "_cellular_bootloader_files", "_firmware_version", "_hardware_version",
   "_compatibility_number", "_region_lock", "_has_local_filesystem",
   "_has_remote_filesystem", "_has_local_firmware", "_has_remote_firmware",
   "_protocol"]

/-- `XBeeProfile.__del__` (profile.py lines 765-770), evaluated to whether
`shutil.rmtree` is invoked: return early unless `hasattr(self,
'profile_folder')`, then remove when the folder attribute is set and the
directory exists on disk. -/
def xbeeProfileDel (attrs : List String) (profileFolder : Option String)
    (dirOnDisk : Bool) : Bool :=
  if "profile_folder" ∈ attrs then
    match profileFolder with
    | some _ => dirOnDisk
    | none => false
  else false

/-- Fuel-driven helper for `natBytesBE` (the fuel only serves structural
termination; it is never exhausted when it starts at the number itself). -/
def natBytesBEFuel : Nat → Nat → List Nat
  | 0, n => [n % 256]
  | fuel + 1, n =>
    if n < 256 then [n] else natBytesBEFuel fuel (n / 256) ++ [n % 256]

/-- Modelled from the spec: `utils.int_to_bytes` without padding — minimal
big-endian byte list of a natural number (at least one byte). -/
def natBytesBE (n : Nat) : List Nat :=
  natBytesBEFuel n n

/-- Modelled from the spec: `utils.int_to_bytes(n, num_bytes)` — the minimal
big-endian bytes, left-padded with zeros up to `numBytes` (never truncated). -/
def intToBytesPadded (n numBytes : Nat) : List Nat :=
  let bs := natBytesBE n
  List.replicate (numBytes - bs.length) 0 ++ bs

/-- Uppercase hexadecimal digit character for a nibble value. -/
def hexDigitUpper (n : Nat) : Char :=
  if n < 10 then Char.ofNat (48 + n) else Char.ofNat (55 + n)

/-- Modelled from the spec: `utils.hex_to_string(bytes, pretty=False)` — two
uppercase hexadecimal digits per byte, no separators (as a char list). -/
def hexToChars (bs : List Nat) : List Char :=
  bs.foldr (fun b acc => hexDigitUpper (b / 16) :: hexDigitUpper (b % 16) :: acc) []

/-- Modelled from the spec: Python `int(s, base=0)` restricted to the
one-character strings that reach it here — a decimal digit parses to its
value, anything else (for instance an `A`-`F` hex digit) raises, modelled as
`none`. -/
def pyIntBase0OneChar (cs : List Char) : Option Nat :=
  match cs with
  | [c] => if c.isDigit then some (c.toNat - 48) else none
  | _ => none

/-- The sentinel-99 region-lock resolution of
`XBeeProfile._parse_xml_firmware_file` (profile.py lines 982-991): render
the firmware version as a fixed 2-byte hex string; if its length is not 4
the region is 0 (all regions), otherwise parse the single character at index
1 with automatic base detection. -/
def resolveRegion99 (fwVersion : Nat) : Option Nat :=
  let s := hexToChars (intToBytesPadded fwVersion 2)
  if s.length ≠ 4 then some 0
  else pyIntBase0OneChar ((s.drop 1).take 1)

/-- Full region-lock resolution (profile.py lines 977-991): an absent
element leaves the lock undefined, the value 99 triggers the sentinel
resolution, anything else is kept.  The outer `none` models a raised
`ValueError`. -/
def resolveRegionLock (regionElement : Option Nat) (fwVersion : Nat) :
    Option (Option Nat) :=
  match regionElement with
  | none => some none
  | some n =>
    if n = 99 then (resolveRegion99 fwVersion).map some
    else some (some n)

/-- The three kinds of update target (profile.py `_ProfileUpdater.__init__`):
a bare serial-port identifier (recovery), a local `XBeeDevice` handle, or a
`RemoteXBeeDevice` handle. -/
inductive Target
  | serialPort
  | localDevice
  | remoteDevice
deriving DecidableEq, Repr

/-- `FlashFirmwareOption` (profile.py lines 417-474). -/
inductive FlashFirmwareOption
  | flashAlways
  | flashDifferent
  | dontFlash
deriving DecidableEq, Repr

/-- `FlashFirmwareOption.code` (profile.py lines 426-428). -/
def FlashFirmwareOption.code : FlashFirmwareOption → Nat
  | FlashFirmwareOption.flashAlways => 0
  | FlashFirmwareOption.flashDifferent => 1
  | FlashFirmwareOption.dontFlash => 2

/-- `_REMOTE_DEFAULT_TIMEOUT` (profile.py line 83). -/
def remoteDefaultTimeout : Nat := 20

/-- `_LOCAL_DEFAULT_TIMEOUT` (profile.py line 84). -/
def localDefaultTimeout : Nat := 3

/-- Python truthiness test `not timeout` used by `apply_xbee_profile`
(profile.py line 1951): true for an absent timeout and for an explicit 0. -/
def pyTimeoutFalsy : Option Nat → Bool
  | none => true
  | some t => t == 0

/-- Timeout resolution of `apply_xbee_profile` (profile.py lines 1951-1953):
when `not timeout`, use the remote default for a serial-port or remote
target and the local default for a local device. -/
def resolveApplyTimeout (timeout : Option Nat) (tgt : Target) : Nat :=
  if pyTimeoutFalsy timeout then
    if tgt = Target.serialPort ∨ tgt = Target.remoteDevice then remoteDefaultTimeout
    else localDefaultTimeout
  else timeout.getD 0

/-- One profile setting as the orchestrator consumes it: its stored name and
its `bytearray_value`. -/
structure ProfileSettingVal where
  name : String
  value : List Nat
deriving DecidableEq, Repr

/-- The slice of `XBeeProfile` that `_ProfileUpdater` reads. -/
structure ProfileModel where
  flashFirmwareOption : FlashFirmwareOption
  firmwareVersion : Nat
  hardwareVersion : Nat
  resetSettings : Bool
  profileSettings : List ProfileSettingVal
  hasLocalFilesystem : Bool
  hasRemoteFilesystem : Bool
deriving Repr

/-- `XBeeProfile.has_filesystem` (profile.py lines 1156-1166). -/
def ProfileModel.hasFilesystem (p : ProfileModel) : Bool :=
  p.hasLocalFilesystem || p.hasRemoteFilesystem

/-- Oracle fixing the outcome of every collaborator call the orchestrator
makes.  `writeOk n` decides the n-th `_set_parameter_with_retries` call of
the run (counting all its internal retries as one call). -/
structure Env where
  openOk : Bool
  vrReadOk : Bool
  hvReadOk : Bool
  deviceFirmwareVersion : Nat
  deviceHardwareVersion : Nat
  protoDiffByFw : Bool
  protoDiffBySettings : Bool
  fwHwSupported : Bool
  flashOk : Bool
  openAfterFlash : Bool
  recoveryOpenOk : Bool
  writeOk : Nat → Bool
  portReconfigOk : Bool
  readInfoOk : Bool
  opModeAtSettings : Nat
  opModeAtCleanup : Nat
  fsHwSupported : Bool
  fsApiSupported : Bool
  fsOk : Bool
  cleanupOpenOk : Bool

/-- The fatal errors `update_profile` can raise (one constructor per raise
site of `_ProfileUpdater`). -/
inductive UpdErr
  | openDevice
  | readRemoteParameter
  | hardwareNotCompatible
  | firmwareNotCompatible
  | hardwareNotSupportedFw
  | updateFirmware
  | recoveryOpen
  | settingsProtocolChange
  | updateSettings
  | updateSerialPort
  | updateTargetInformation
  | filesystemNotSupported
  | updateFilesystem
  | filesystemProtocolChange
deriving DecidableEq, Repr

/-- One recorded `_set_parameter_with_retries` call: AT command name, value
written, and whether the call succeeded within its retries. -/
structure WriteRec where
  name : String
  value : List Nat
  ok : Bool
deriving DecidableEq, Repr

/-- The mutable state the orchestrator threads through a run: the shared
device handle's connection and auto-apply flag, plus the observable trace
(write calls split by phase, settings-phase progress percentages in reverse
emission order, collaborator call counters, and the withheld operating-mode
byte `_xpro_ap`). -/
structure St where
  isOpen : Bool
  applyChanges : Bool
  writeIdx : Nat
  settingsWrites : List WriteRec
  cleanupWrites : List WriteRec
  settingsPercentsRev : List Nat
  flashCount : Nat
  fsOps : Nat
  xproAp : Option (List Nat)
deriving DecidableEq, Repr

/-- How a run of `update_profile` ends: normal return, an error raised from
the try body (and propagated after a completed finally block), or an error
raised by the finally block itself, which aborts the rest of the cleanup. -/
inductive Outcome
  | ok
  | fail (e : UpdErr)
  | cleanupError
deriving DecidableEq, Repr

/-- Outcome of a run whose finally block completed. -/
def outcomeOf : Option UpdErr → Outcome
  | none => Outcome.ok
  | some e => Outcome.fail e

/-- A `_set_parameter_with_retries` call issued during the settings phase
(recorded on the settings-phase trace). -/
def setParamSettings (env : Env) (s : St) (nm : String) (v : List Nat) :
    St × Bool :=
  let ok := env.writeOk s.writeIdx
  ({ s with writeIdx := s.writeIdx + 1,
            settingsWrites := s.settingsWrites ++ [⟨nm, v, ok⟩] }, ok)

/-- A `_set_parameter_with_retries` call issued during the cleanup phase
(recorded on the cleanup trace). -/
def setParamCleanup (env : Env) (s : St) (nm : String) (v : List Nat) :
    St × Bool :=
  let ok := env.writeOk s.writeIdx
  ({ s with writeIdx := s.writeIdx + 1,
            cleanupWrites := s.cleanupWrites ++ [⟨nm, v, ok⟩] }, ok)

/-- Record one settings-phase progress-callback invocation. -/
def emitPercent (s : St) (p : Nat) : St :=
  { s with settingsPercentsRev := p :: s.settingsPercentsRev }

/-- `_PARAMETERS_NETWORK` (profile.py lines 106-112). -/
def parametersNetwork : List String := ["ID", "CH", "HP", "CM", "BR", "EE", "KY"]

/-- `_PARAMETERS_CACHE` (profile.py lines 101-105). -/
def parametersCache : List String := ["NI", "CE", "SM", "BR", "MY"]

/-- `_PARAMETERS_SERIAL_PORT` (profile.py lines 97-100). -/
def parametersSerialPort : List String := ["BD", "NB", "SB", "D7"]

/-- Result of the settings for-loop: state, next setting index, last emitted
percentage, the two change flags, and whether every write succeeded. -/
structure LoopOut where
  st : St
  idx : Nat
  prev : Nat
  net : Bool
  cache : Bool
  ok : Bool
deriving Repr

/-- The for-loop over profile settings (profile.py lines 1646-1664): emit
the percentage when it changed, withhold the `AP` value on a local target
(store it in `_xpro_ap`), otherwise write the setting; update the
network/cache flags after a processed setting; a failed write aborts the
loop (the exception propagates before the index and flags update). -/
def settingsLoop (env : Env) (isLocal : Bool) (num : Nat) :
    List ProfileSettingVal → Nat → Nat → Bool → Bool → St → LoopOut
  | [], idx, prev, net, cache, s => ⟨s, idx, prev, net, cache, true⟩
  | q :: rest, idx, prev, net, cache, s =>
    let percent := idx * 100 / num
    let ep : St × Nat :=
      if percent ≠ prev then (emitPercent s percent, percent) else (s, prev)
    let nm := pyUpper q.name
    let net1 := net || decide (nm ∈ parametersNetwork)
    let cache1 := cache || decide (nm ∈ parametersCache)
    if isLocal ∧ nm = "AP" then
      settingsLoop env isLocal num rest (idx + 1) ep.2 net1 cache1
        { ep.1 with xproAp := some q.value }
    else
      let wr := setParamSettings env ep.1 nm q.value
      if wr.2 then settingsLoop env isLocal num rest (idx + 1) ep.2 net1 cache1 wr.1
      else ⟨wr.1, idx, ep.2, net, cache, false⟩

/-- The outer apply-changes retry loop (profile.py lines 1680-1690): up to
three `_set_parameter_with_retries` calls for `AC`, stopping at the first
success. -/
def acWriteLoop (env : Env) : St → Nat → St × Bool
  | s, 0 => (s, false)
  | s, n + 1 =>
    let wr := setParamSettings env s "AC" []
    if wr.2 then (wr.1, true) else acWriteLoop env wr.1 n

/-- End of the settings try-block (profile.py lines 1666-1690): emit and
write `WR`, then emit the next percentage (without updating the previous
value) and run the `AC` retry loop. -/
def settingsFinish (env : Env) (num idx prev : Nat) (s : St) : St × Bool :=
  let percent := idx * 100 / num
  let ep : St × Nat :=
    if percent ≠ prev then (emitPercent s percent, percent) else (s, prev)
  let wr := setParamSettings env ep.1 "WR" []
  if wr.2 then
    let p2 := (idx + 1) * 100 / num
    let s3 := if p2 ≠ ep.2 then emitPercent wr.1 p2 else wr.1
    acWriteLoop env s3 3
  else (wr.1, false)

/-- Result of the settings try-block. -/
structure TryOut where
  st : St
  net : Bool
  cache : Bool
  ok : Bool
deriving Repr

/-- Continuation of the settings try-block after the optional reset step
(profile.py lines 1646-1690): the settings loop over the profile settings,
then `WR` and the `AC` retry loop; a loop failure propagates. -/
def settingsTryRest (env : Env) (prof : ProfileModel) (tgt : Target)
    (num idx prev : Nat) (net cache : Bool) (sIn : St) : TryOut :=
  let lo := settingsLoop env (decide (tgt ≠ Target.remoteDevice)) num
    prof.profileSettings idx prev net cache sIn
  if lo.ok then
    let fin := settingsFinish env num lo.idx lo.prev lo.st
    ⟨fin.1, lo.net, lo.cache, fin.2⟩
  else ⟨lo.st, lo.net, lo.cache, false⟩

/-- The settings try-block (profile.py lines 1615-1690): initial progress
emission, the optional restore-defaults step (which on a local target stores
the AT-mode code 0 in `_xpro_ap` and immediately re-writes the device's
current operating mode), then the settings loop, `WR`, and the `AC` retry
loop. -/
def runSettingsTry (env : Env) (prof : ProfileModel) (tgt : Target) (s0 : St) :
    TryOut :=
  let count := prof.profileSettings.length
  let s1 := emitPercent s0 0
  if prof.resetSettings = true ∨ tgt = Target.serialPort then
    let num := count + 3
    let percent := 1 * 100 / num
    let ep : St × Nat :=
      if percent ≠ 0 then (emitPercent s1 percent, percent) else (s1, 0)
    let reWr := setParamSettings env ep.1 "RE" []
    if reWr.2 then
      if tgt ≠ Target.remoteDevice then
        let s4 := { reWr.1 with xproAp := some [0] }
        let apWr := setParamSettings env s4 "AP" [env.opModeAtSettings]
        if apWr.2 then settingsTryRest env prof tgt num 2 ep.2 true true apWr.1
        else ⟨apWr.1, true, true, false⟩
      else settingsTryRest env prof tgt num 2 ep.2 true true reWr.1
    else ⟨reWr.1, false, false, false⟩
  else
    settingsTryRest env prof tgt (count + 2) 1 0 false false s1

/-- Steps after the port-settings check (profile.py lines 1701-1731): stop
for a serial-port target; otherwise, when cache-relevant settings changed or
the protocol changed by settings, re-read the device information with
retries, failing with the target-information error on exhaustion. -/
def afterPort (env : Env) (tgt : Target) (pcSet cache : Bool) (s : St) :
    St × Option UpdErr :=
  if tgt = Target.serialPort then (s, none)
  else if cache = true ∨ pcSet = true then
    if env.readInfoOk then (s, none) else (s, some UpdErr.updateTargetInformation)
  else (s, none)

/-- `_ProfileUpdater._update_device_settings` (profile.py lines 1589-1731):
skip when there is nothing to do, fail early for an unreachable remote,
disable auto-apply for the try-block (restored only on success, as in the
source), run the try-block, reconfigure the local serial port when framing
settings were touched (closing the device and reopening it, a failure
leaving it closed), then the post-steps. -/
def updateDeviceSettings (env : Env) (prof : ProfileModel) (tgt : Target)
    (pcFw pcSet : Bool) (s0 : St) : St × Option UpdErr :=
  if prof.profileSettings.length = 0 ∧ prof.resetSettings = false ∧
      tgt ≠ Target.serialPort then
    (s0, none)
  else if tgt = Target.remoteDevice ∧ pcFw = true ∧
      (0 < prof.profileSettings.length ∨ prof.resetSettings = true) then
    (s0, some UpdErr.settingsProtocolChange)
  else
    let oldApply := s0.applyChanges
    let t := runSettingsTry env prof tgt { s0 with applyChanges := false }
    if t.ok = false then (t.st, some UpdErr.updateSettings)
    else
      let s3 := { t.st with applyChanges := oldApply }
      if tgt ≠ Target.remoteDevice ∧
          ((∃ q ∈ prof.profileSettings, pyUpper q.name ∈ parametersSerialPort) ∨
            prof.resetSettings = true ∨ tgt = Target.serialPort) then
        if env.portReconfigOk then
          afterPort env tgt pcSet t.cache { s3 with isOpen := true }
        else ({ s3 with isOpen := false }, some UpdErr.updateSerialPort)
      else afterPort env tgt pcSet t.cache s3

/-- `_ProfileUpdater._update_file_system` and its legacy variant (profile.py
lines 1733-1817), with each filesystem collaborator call counted in `fsOps`
and its success fixed by the oracle: the modern file-manager path, the
legacy local command-mode path, and the legacy remote OTA-image path, which
fails first when either protocol-change flag is set. -/
def updateFileSystem (env : Env) (prof : ProfileModel) (tgt : Target)
    (pcFw pcSet : Bool) (s : St) : St × Option UpdErr :=
  if prof.hasLocalFilesystem = true ∧ env.fsApiSupported = true then
    let s1 := { s with fsOps := s.fsOps + 1 }
    if env.fsOk then ({ s1 with fsOps := s1.fsOps + 1 }, none)
    else (s1, some UpdErr.updateFilesystem)
  else if tgt ≠ Target.remoteDevice ∧ prof.hasLocalFilesystem = true then
    let s1 := { s with fsOps := s.fsOps + 1 }
    if env.fsOk then ({ s1 with fsOps := s1.fsOps + 1 }, none)
    else (s1, some UpdErr.updateFilesystem)
  else if tgt = Target.remoteDevice ∧ prof.hasRemoteFilesystem = true then
    if pcFw = true ∨ pcSet = true then (s, some UpdErr.filesystemProtocolChange)
    else
      let s1 := { s with fsOps := s.fsOps + 1 }
      if env.fsOk then (s1, none) else (s1, some UpdErr.updateFilesystem)
  else (s, none)

/-- The settings phase followed by the filesystem phase (profile.py lines
1873-1880): after the settings update, when the profile carries a
filesystem, check the device hardware against the filesystem collaborator's
supported set before delegating. -/
def settingsAndFs (env : Env) (prof : ProfileModel) (tgt : Target)
    (pcFw pcSet : Bool) (s : St) : St × Option UpdErr :=
  match updateDeviceSettings env prof tgt pcFw pcSet s with
  | (s1, some e) => (s1, some e)
  | (s1, none) =>
    if prof.hasFilesystem then
      if env.fsHwSupported = false then (s1, some UpdErr.filesystemNotSupported)
      else updateFileSystem env prof tgt pcFw pcSet s1
    else (s1, none)

/-- Result of the try body of `update_profile`: final state, whether a
device handle exists at finally time (always for device targets, and for a
recovery port once the handle was constructed after flashing), and the
pending error. -/
structure BodyOut where
  st : St
  hasDeviceEnd : Bool
  err : Option UpdErr
deriving Repr

/-- Flash decision and the remaining try body (profile.py lines 1851-1880):
the `DONT_FLASH`-with-different-firmware error, the flash decision per
option, the supported-hardware check (skipped when no hardware version is
known, that is for a recovery port), the flash itself (which may change a
local device's open state as a side effect), the recovery-port device
construction and forced open, and then settings and filesystem phases. -/
def bodyAfterParams (env : Env) (prof : ProfileModel) (tgt : Target)
    (deviceFw : Nat) (pcFw pcSet : Bool) (s : St) : BodyOut :=
  let same : Bool := deviceFw == prof.firmwareVersion
  if prof.flashFirmwareOption = FlashFirmwareOption.dontFlash ∧ same = false then
    ⟨s, tgt ≠ Target.serialPort, some UpdErr.firmwareNotCompatible⟩
  else
    let flashFw : Bool :=
      match prof.flashFirmwareOption with
      | FlashFirmwareOption.flashAlways => true
      | FlashFirmwareOption.flashDifferent => !same
      | FlashFirmwareOption.dontFlash => false
    let step2 : St → BodyOut := fun sIn =>
      if tgt = Target.serialPort then
        if env.recoveryOpenOk then
          let out := settingsAndFs env prof tgt pcFw pcSet { sIn with isOpen := true }
          ⟨out.1, true, out.2⟩
        else ⟨sIn, true, some UpdErr.recoveryOpen⟩
      else
        let out := settingsAndFs env prof tgt pcFw pcSet sIn
        ⟨out.1, true, out.2⟩
    if tgt = Target.serialPort ∨ flashFw = true then
      if tgt ≠ Target.serialPort ∧ env.fwHwSupported = false then
        ⟨s, true, some UpdErr.hardwareNotSupportedFw⟩
      else
        let s1 := { s with flashCount := s.flashCount + 1 }
        if env.flashOk = false then
          ⟨s1, tgt ≠ Target.serialPort, some UpdErr.updateFirmware⟩
        else
          let s2 :=
            if tgt = Target.localDevice then { s1 with isOpen := env.openAfterFlash }
            else s1
          step2 s2
    else step2 s

/-- The try body of `update_profile` (profile.py lines 1833-1880): parameter
reads and compatibility checks per target kind (for a local device, opening
it if closed; for a remote one, the retried `VR`/`HV` reads), protocol
change prediction, then the flash decision and later phases. -/
def runBody (env : Env) (prof : ProfileModel) (tgt : Target) (s0 : St) :
    BodyOut :=
  match tgt with
  | Target.serialPort =>
    bodyAfterParams env prof Target.serialPort 0 false false s0
  | Target.localDevice =>
    if s0.isOpen = false ∧ env.openOk = false then
      ⟨s0, true, some UpdErr.openDevice⟩
    else
      let s1 := if s0.isOpen then s0 else { s0 with isOpen := true }
      if env.deviceHardwareVersion ≠ prof.hardwareVersion then
        ⟨s1, true, some UpdErr.hardwareNotCompatible⟩
      else
        let pcFw := env.protoDiffByFw && decide (prof.flashFirmwareOption.code < 2)
        let pcSet := env.protoDiffBySettings && decide (prof.flashFirmwareOption.code < 2)
        bodyAfterParams env prof Target.localDevice env.deviceFirmwareVersion pcFw pcSet s1
  | Target.remoteDevice =>
    if env.vrReadOk = false ∨ env.hvReadOk = false then
      ⟨s0, true, some UpdErr.readRemoteParameter⟩
    else if env.deviceHardwareVersion ≠ prof.hardwareVersion then
      ⟨s0, true, some UpdErr.hardwareNotCompatible⟩
    else
      let pcFw := env.protoDiffByFw && decide (prof.flashFirmwareOption.code < 2)
      let pcSet := env.protoDiffBySettings && decide (prof.flashFirmwareOption.code < 2)
      bodyAfterParams env prof Target.remoteDevice env.deviceFirmwareVersion pcFw pcSet s0

/-- The condition guarding the cleanup `AP` restore (profile.py lines
1884-1887): local target, a truthy (non-empty) withheld byte sequence whose
first byte differs from the device's current operating mode and is one of
the two valid API framing modes 1 and 2. -/
def apRestoreCond (isLocal : Bool) (modeNow : Nat) : Option (List Nat) → Bool
  | some (b :: _) => isLocal && !(b == modeNow) && (b == 1 || b == 2)
  | _ => false

/-- Result of the finally block: state, the device timeout after the block,
and the run's outcome. -/
structure CleanupOut where
  st : St
  timeoutAfter : Nat
  outcome : Outcome
deriving Repr

/-- The conditional operating-mode restore at the top of the finally block
(profile.py lines 1884-1896): when `apRestoreCond` holds, re-enable
auto-apply, write `AP` then `WR`, and restore the saved auto-apply flag;
a failed write aborts (the raised exception skips the rest of the finally
block), reported as a `false` second component. -/
def cleanupApRestore (env : Env) (isLocal : Bool) (s : St) : St × Bool :=
  if apRestoreCond isLocal env.opModeAtCleanup s.xproAp then
    let origAc := s.applyChanges
    let wr1 := setParamCleanup env { s with applyChanges := true } "AP"
      (s.xproAp.getD [])
    if wr1.2 then
      let wr2 := setParamCleanup env wr1.1 "WR" []
      if wr2.2 then ({ wr2.1 with applyChanges := origAc }, true)
      else (wr2.1, false)
    else (wr1.1, false)
  else (s, true)

/-- The finally block of `update_profile` (profile.py lines 1881-1905):
conditionally restore the withheld operating mode (a failure there skips
the remaining restores), restore the saved synchronous-operation timeout,
and reconcile the local connection with its phase-1 open/closed state. -/
def cleanupRun (env : Env) (tgt : Target) (wasConnected : Bool)
    (oldTimeout : Option Nat) (timeoutNow : Nat) (hasDeviceEnd : Bool)
    (s : St) (bodyErr : Option UpdErr) : CleanupOut :=
  let isLocal : Bool := decide (tgt ≠ Target.remoteDevice)
  let step1 := cleanupApRestore env isLocal s
  if step1.2 = false then ⟨step1.1, timeoutNow, Outcome.cleanupError⟩
  else
    let s1 := step1.1
    let t2 := match oldTimeout with | some t => t | none => timeoutNow
    if isLocal = true ∧ hasDeviceEnd = true then
      if wasConnected = true ∧ s1.isOpen = false then
        if env.cleanupOpenOk then ⟨{ s1 with isOpen := true }, t2, outcomeOf bodyErr⟩
        else ⟨s1, t2, Outcome.cleanupError⟩
      else if wasConnected = false ∧ s1.isOpen = true then
        ⟨{ s1 with isOpen := false }, t2, outcomeOf bodyErr⟩
      else ⟨s1, t2, outcomeOf bodyErr⟩
    else ⟨s1, t2, outcomeOf bodyErr⟩

/-- Result of one whole `update_profile` run. -/
structure RunRes where
  finalSt : St
  finalTimeout : Nat
  outcome : Outcome
  wasConnected : Bool
deriving Repr

/-- The orchestrator state at the start of a run: empty trace, withheld
operating mode unset, device connection and auto-apply flag as given. -/
def initialSt (devOpen devApply : Bool) : St :=
  { isOpen := devOpen, applyChanges := devApply, writeIdx := 0,
    settingsWrites := [], cleanupWrites := [], settingsPercentsRev := [],
    flashCount := 0, fsOps := 0, xproAp := none }

/-- `_ProfileUpdater.update_profile` (profile.py lines 1819-1905): save the
device's synchronous-operation timeout and override it with the call
timeout (device targets only), note the phase-1 connection state
(`_was_connected`), run the try body, and always run the finally block. -/
def updateProfile (env : Env) (prof : ProfileModel) (tgt : Target)
    (callTimeout devTimeout : Nat) (devOpen devApply : Bool) : RunRes :=
  let s0 := initialSt devOpen devApply
  let oldTimeout : Option Nat :=
    if tgt = Target.serialPort then none else some devTimeout
  let wasConnected :=
    match tgt with
    | Target.serialPort => false
    | Target.localDevice => devOpen
    | Target.remoteDevice => true
  let b := runBody env prof tgt s0
  let c := cleanupRun env tgt wasConnected oldTimeout callTimeout
    b.hasDeviceEnd b.st b.err
  ⟨c.st, c.timeoutAfter, c.outcome, wasConnected⟩

/-- Total step count of the settings phase as the source computes it
(profile.py lines 1620 and 1627): the settings count plus `WR` and `AC`,
plus one more when the restore-defaults step is added. -/
def totalSteps (prof : ProfileModel) (tgt : Target) : Nat :=
  prof.profileSettings.length + 2 +
    (if prof.resetSettings = true ∨ tgt = Target.serialPort then 1 else 0)

/-- A run environment where every collaborator call succeeds, the device
firmware version is 100, the hardware version is 50, and the current
operating mode reads as 1 (API mode) throughout. -/
def envOk : Env :=
  { openOk := true, vrReadOk := true, hvReadOk := true,
    deviceFirmwareVersion := 100, deviceHardwareVersion := 50,
    protoDiffByFw := false, protoDiffBySettings := false,
    fwHwSupported := true, flashOk := true, openAfterFlash := true,
    recoveryOpenOk := true, writeOk := fun _ => true,
    portReconfigOk := true, readInfoOk := true,
    opModeAtSettings := 1, opModeAtCleanup := 1,
    fsHwSupported := true, fsApiSupported := true, fsOk := true,
    cleanupOpenOk := true }

/-- `envOk` with every `AC` write failing (the first two writes of the run
succeed, every later one times out). -/
def envAcFails : Env := { envOk with writeOk := fun n => decide (n < 2) }

/-- `envOk` with a failing filesystem collaborator. -/
def envFsFails : Env := { envOk with fsOk := false }

/-- A profile matching `envOk`'s device (hardware 50, firmware 100),
flash-if-different, no reset, one `ID` setting, no filesystem payload. -/
def profBase : ProfileModel :=
  { flashFirmwareOption := FlashFirmwareOption.flashDifferent,
    firmwareVersion := 100, hardwareVersion := 50,
    resetSettings := false,
    profileSettings := [⟨"ID", [7]⟩],
    hasLocalFilesystem := false, hasRemoteFilesystem := false }

/-- `profBase` with `reset_settings` enabled. -/
def profReset : ProfileModel := { profBase with resetSettings := true }

/-- `profBase` with a local filesystem payload. -/
def profFs : ProfileModel := { profBase with hasLocalFilesystem := true }

/-- `profBase` with `DONT_FLASH` and a firmware version the device does not
have. -/
def profDontFlash : ProfileModel :=
  { profBase with flashFirmwareOption := FlashFirmwareOption.dontFlash,
                  firmwareVersion := 101 }

/-- A pre-cleanup state whose withheld operating-mode byte is 2
(escaped-API mode). -/
def stW : St := { initialSt true true with xproAp := some [2] }

/-- Invariant of the settings-phase progress bookkeeping, measured against
the step total `num`: the last emitted percentage (`prev`) heads the
reversed emission list, emissions are strictly increasing in emission
order, every emitted value is the percentage of a step strictly before the
last one, and `prev` does not exceed the percentage of the next step
`idx`. -/
def percInv (num idx prev : Nat) (s : St) : Prop :=
  s.settingsPercentsRev.head? = some prev ∧
  List.Chain' (fun a b => b < a) s.settingsPercentsRev ∧
  (∀ p ∈ s.settingsPercentsRev, ∃ i, i < num ∧ p = i * 100 / num) ∧
  prev ≤ idx * 100 / num

/-- The claimed shape of a finished run's progress trace, measured against
the step total `num`: emissions strictly increase in emission order, every
emitted value is the percentage of one of the `num` steps, and when 100 was
emitted an `AC` write call is on the settings-phase trace. -/
def percProp (num : Nat) (s : St) : Prop :=
  List.Chain' (fun a b => b < a) s.settingsPercentsRev ∧
  (∀ p ∈ s.settingsPercentsRev, ∃ i, i ≤ num ∧ p = i * 100 / num) ∧
  (100 ∈ s.settingsPercentsRev → ∃ w ∈ s.settingsWrites, w.name = "AC")

/-- The claimed shape of a local run's settings-phase write trace: the only
operating-mode (`AP`) value ever written there is the device's current
operating mode, re-written immediately after a restore-defaults step; a
profile `AP` setting's byte value is withheld instead of written. -/
def apProp (env : Env) (s : St) : Prop :=
  ∀ w ∈ s.settingsWrites, w.name = "AP" → w.value = [env.opModeAtSettings]

/-! ## Helper lemmas -/

theorem catalogFold_no_match (pr : String × String)
    (catalog : List FirmwareSettingElem)
    (acc : List (String × ProfileSettingModel))
    (h : ∀ fse ∈ catalog, fse.command ≠ pr.1) :
    catalog.foldl (applyCatalogEntry pr) acc = acc := by
  induction catalog generalizing acc with
  | nil => rfl
  | cons fse rest ih =>
    have h1 : fse.command ≠ pr.1 := h fse (by simp)
    have h2 : ∀ g ∈ rest, g.command ≠ pr.1 := fun g hg => h g (by simp [hg])
    simp only [List.foldl_cons]
    rw [show applyCatalogEntry pr acc fse = acc from by simp [applyCatalogEntry, h1]]
    exact ih acc h2

theorem rawFold_no_match (catalog : List FirmwareSettingElem)
    (raw : List (String × String))
    (acc : List (String × ProfileSettingModel))
    (h : ∀ pr ∈ raw, ∀ fse ∈ catalog, fse.command ≠ pr.1) :
    raw.foldl (fun acc2 pr => catalog.foldl (applyCatalogEntry pr) acc2) acc = acc := by
  induction raw generalizing acc with
  | nil => rfl
  | cons pr rest ih =>
    simp only [List.foldl_cons]
    rw [catalogFold_no_match pr catalog acc (h pr (by simp))]
    exact ih acc (fun q hq => h q (by simp [hq]))

theorem natBytesBEFuel_small (fuel n : Nat) (h : n < 256) :
    natBytesBEFuel fuel n = [n] := by
  cases fuel with
  | zero => simp [natBytesBEFuel, Nat.mod_eq_of_lt h]
  | succ f => simp [natBytesBEFuel, h]

theorem natBytesBE_small (n : Nat) (h : n < 256) : natBytesBE n = [n] :=
  natBytesBEFuel_small n n h

theorem natBytesBEFuel_two (fuel n : Nat) (hf : 1 ≤ fuel) (h1 : 256 ≤ n)
    (h2 : n < 65536) : natBytesBEFuel fuel n = [n / 256, n % 256] := by
  obtain ⟨f, rfl⟩ : ∃ f, fuel = f + 1 := ⟨fuel - 1, by omega⟩
  rw [natBytesBEFuel]
  rw [if_neg (by omega : ¬ n < 256)]
  rw [natBytesBEFuel_small f (n / 256) (by omega)]
  rfl

theorem natBytesBE_two (n : Nat) (h1 : 256 ≤ n) (h2 : n < 65536) :
    natBytesBE n = [n / 256, n % 256] :=
  natBytesBEFuel_two n n (by omega) h1 h2

theorem natBytesBEFuel_ne_nil (fuel n : Nat) : natBytesBEFuel fuel n ≠ [] := by
  cases fuel with
  | zero => simp [natBytesBEFuel]
  | succ f =>
    rw [natBytesBEFuel]
    split <;> simp

theorem natBytesBE_len3 (n : Nat) (h : 65536 ≤ n) :
    3 ≤ (natBytesBE n).length := by
  unfold natBytesBE
  obtain ⟨f, hf⟩ : ∃ f, n = f + 1 + 1 := ⟨n - 2, by omega⟩
  rw [hf]
  rw [natBytesBEFuel]
  rw [if_neg (by omega : ¬ f + 1 + 1 < 256)]
  rw [natBytesBEFuel]
  rw [if_neg (by omega : ¬ (f + 1 + 1) / 256 < 256)]
  have h1 : 0 < (natBytesBEFuel f ((f + 1 + 1) / 256 / 256)).length :=
    List.length_pos.mpr (natBytesBEFuel_ne_nil _ _)
  simp only [List.length_append, List.length_cons, List.length_nil]
  omega

theorem intToBytesPadded_two (n : Nat) (h : n < 65536) :
    intToBytesPadded n 2 = [n / 256, n % 256] := by
  by_cases h1 : n < 256
  · unfold intToBytesPadded
    rw [natBytesBE_small n h1]
    simp [Nat.div_eq_of_lt h1, Nat.mod_eq_of_lt h1]
  · unfold intToBytesPadded
    rw [natBytesBE_two n (by omega) h]
    rfl

theorem hexToChars_cons (b : Nat) (bs : List Nat) :
    hexToChars (b :: bs) =
      hexDigitUpper (b / 16) :: hexDigitUpper (b % 16) :: hexToChars bs := rfl

theorem hexToChars_length (bs : List Nat) :
    (hexToChars bs).length = 2 * bs.length := by
  induction bs with
  | nil => rfl
  | cons b rest ih =>
    rw [hexToChars_cons]
    simp only [List.length_cons, ih]
    omega

theorem pyInt_hexDigit (m : Nat) (h : m < 16) :
    pyIntBase0OneChar [hexDigitUpper m] =
      (if m < 10 then some m else none) := by
  interval_cases m <;> decide

theorem resolveRegion99_small (fw : Nat) (h : fw < 65536) :
    resolveRegion99 fw =
      (if (fw / 256) % 16 < 10 then some ((fw / 256) % 16) else none) := by
  unfold resolveRegion99
  rw [intToBytesPadded_two fw h]
  rw [hexToChars_cons, hexToChars_cons]
  rw [if_neg (by simp [hexToChars])]
  show pyIntBase0OneChar [hexDigitUpper (fw / 256 % 16)] = _
  exact pyInt_hexDigit ((fw / 256) % 16) (Nat.mod_lt _ (by norm_num))

theorem resolveRegion99_large (fw : Nat) (h : 65536 ≤ fw) :
    resolveRegion99 fw = some 0 := by
  unfold resolveRegion99
  have hlen : (hexToChars (intToBytesPadded fw 2)).length ≠ 4 := by
    rw [hexToChars_length]
    unfold intToBytesPadded
    have h3 := natBytesBE_len3 fw h
    simp only [List.length_append, List.length_replicate]
    omega
  simp [hlen]

/-! ## Claim theorems: archive reader, codec, entry point -/

/-- C8: the Setting Codec reference equations hold: `Number`/`Combo`
settings hex-decode `"1A2B"` to `[0x1A, 0x2B]` for every format, `Text`
with `Ipv4` encodes `"192.168.1.1"` to `[192, 168, 1, 1]`, a `Button`
setting encodes any raw value to the empty byte sequence, and `Text` with
`Ascii` encodes `"ABC"` to its UTF-8 bytes `[65, 66, 67]`. -/
theorem c8_setting_codec_equations :
    (∀ fm, settingValueToBytearray (some XBeeSettingType.number) fm "1A2B" =
      EncodedValue.bytes [26, 43]) ∧
    (∀ fm, settingValueToBytearray (some XBeeSettingType.combo) fm "1A2B" =
      EncodedValue.bytes [26, 43]) ∧
    settingValueToBytearray (some XBeeSettingType.text)
      (some XBeeSettingFormat.ipv4) "192.168.1.1" =
      EncodedValue.bytes [192, 168, 1, 1] ∧
    (∀ fm v, settingValueToBytearray (some XBeeSettingType.button) fm v =
      EncodedValue.bytes []) ∧
    settingValueToBytearray (some XBeeSettingType.text)
      (some XBeeSettingFormat.ascii) "ABC" =
      EncodedValue.bytes (utf8Bytes "ABC") ∧
    utf8Bytes "ABC" = [65, 66, 67] := by
  refine ⟨fun fm => rfl, fun fm => rfl, by decide, fun fm v => rfl, rfl, by decide⟩

/-- C10: in `apply_xbee_profile` an explicit timeout of 0 is treated like
an absent timeout because the override check tests falsiness: it is
replaced by the default, 20 seconds for a recovery-port or remote target
and 3 seconds for a local device, while any non-zero timeout is honored. -/
theorem c10_zero_timeout_uses_default :
    (∀ tgt, resolveApplyTimeout (some 0) tgt = resolveApplyTimeout none tgt) ∧
    resolveApplyTimeout (some 0) Target.serialPort = 20 ∧
    resolveApplyTimeout (some 0) Target.remoteDevice = 20 ∧
    resolveApplyTimeout (some 0) Target.localDevice = 3 ∧
    (∀ t tgt, t ≠ 0 → resolveApplyTimeout (some t) tgt = t) := by
  refine ⟨fun tgt => rfl, rfl, rfl, rfl, fun t tgt ht => ?_⟩
  simp [resolveApplyTimeout, pyTimeoutFalsy, ht]

/-- Witness for C10 at a concrete non-zero timeout. -/
theorem c10_witness : resolveApplyTimeout (some 5) Target.localDevice = 5 :=
  c10_zero_timeout_uses_default.2.2.2.2 5 Target.localDevice (by decide)

/-- C3 (code evaluated at the failing input): `XBeeProfile.__del__` never
removes the scratch directory, whatever the folder attribute and the disk
state, because it tests `hasattr(self, 'profile_folder')` while the
attribute assigned by the constructor is `_profile_folder`. -/
theorem c3_del_never_removes_scratch_dir :
    (∀ folder dirOnDisk,
      xbeeProfileDel xbeeProfileInitAttrs folder dirOnDisk = false) ∧
    "profile_folder" ∉ xbeeProfileInitAttrs ∧
    "_profile_folder" ∈ xbeeProfileInitAttrs := by
  refine ⟨fun folder dirOnDisk => ?_, by decide, by decide⟩
  unfold xbeeProfileDel
  rw [if_neg (by decide)]

/-- C2 counterexample: a raw `(command, value)` pair whose command matches
no firmware-descriptor setting produces no `ProfileSetting` at all — the
parsed settings are empty, rather than containing a `NoType`/`NoFormat`
entry as the claim states. -/
theorem c2_counterexample :
    parseProfileSettings [] [("XY", "12")] = [] ∧
    (∀ p ∈ parseProfileSettings [] [("XY", "12")], False) := by
  exact ⟨by decide, by decide⟩

/-- C2 (amended): a raw setting whose command has no match in the firmware
descriptor's setting catalog is silently dropped from the parsed settings
(never an error), and it is a matched catalog entry *without*
`control_type`/`format` children that degrades the type and format to
`NoType`/`NoFormat`. -/
theorem c2_unmatched_command_dropped :
    (∀ (catalog : List FirmwareSettingElem) (raw : List (String × String)),
      (∀ pr ∈ raw, ∀ fse ∈ catalog, fse.command ≠ pr.1) →
      parseProfileSettings catalog raw = []) ∧
    (∀ (fse : FirmwareSettingElem) (nm val : String),
      fse.command = nm → fse.controlType = none → fse.format = none →
      parseProfileSettings [fse] [(nm, val)] =
        [(pyUpper nm, mkProfileSetting (pyUpper nm) (some XBeeSettingType.noType)
          (some XBeeSettingFormat.noFormat) val)]) := by
  constructor
  · intro catalog raw h
    exact rawFold_no_match catalog raw [] h
  · intro fse nm val h1 h2 h3
    simp [parseProfileSettings, applyCatalogEntry, h1, h2, h3, dictUpdate]

/-- Witness for C2 at concrete inputs: a fully unmatched raw list parses to
nothing, and a matched command with missing children gets
`NoType`/`NoFormat`. -/
theorem c2_witness :
    parseProfileSettings [⟨"NI", none, none⟩] [("AB", "01")] = [] ∧
    parseProfileSettings [⟨"SH", none, none⟩] [("SH", "12")] =
      [("SH", mkProfileSetting "SH" (some XBeeSettingType.noType)
        (some XBeeSettingFormat.noFormat) "12")] := by
  constructor
  · exact c2_unmatched_command_dropped.1 [⟨"NI", none, none⟩] [("AB", "01")]
      (by decide)
  · have h := c2_unmatched_command_dropped.2 ⟨"SH", none, none⟩ "SH" "12"
      rfl rfl rfl
    rw [(by decide : pyUpper "SH" = "SH")] at h
    exact h

/-- C9: sentinel-99 region-lock resolution: a firmware version whose fixed
2-byte hex rendering does not have length 4 resolves to region 0; otherwise
the region is the auto-base integer parse of the character at index 1 of
that rendering — concretely, region 0 exactly for versions of 3 or more
bytes, otherwise the low nibble of the high byte when it is a decimal
digit (a parse error otherwise), and a version rendering to `"1234"`
resolves to 2. -/
theorem c9_region_lock_resolution :
    (∀ fw, (hexToChars (intToBytesPadded fw 2)).length ≠ 4 →
      resolveRegion99 fw = some 0) ∧
    (∀ fw, (hexToChars (intToBytesPadded fw 2)).length = 4 →
      resolveRegion99 fw = pyIntBase0OneChar
        (((hexToChars (intToBytesPadded fw 2)).drop 1).take 1)) ∧
    (∀ fw, fw < 65536 →
      resolveRegion99 fw =
        (if (fw / 256) % 16 < 10 then some ((fw / 256) % 16) else none)) ∧
    (∀ fw, 65536 ≤ fw → resolveRegion99 fw = some 0) ∧
    resolveRegion99 0x1234 = some 2 ∧
    resolveRegionLock (some 99) 0x1234 = some (some 2) := by
  refine ⟨fun fw h => ?_, fun fw h => ?_, resolveRegion99_small,
    resolveRegion99_large, by decide, by decide⟩
  · unfold resolveRegion99
    simp [h]
  · unfold resolveRegion99
    simp [h]

/-- Witness for C9 at concrete firmware versions: `0x1234` resolves to
region 2; a 3-byte version resolves to region 0. -/
theorem c9_witness :
    resolveRegion99 0x1234 = some 2 ∧ resolveRegion99 0xA1234 = some 0 := by
  constructor
  · rw [c9_region_lock_resolution.2.2.1 0x1234 (by norm_num)]
    decide
  · exact c9_region_lock_resolution.2.2.2.1 0xA1234 (by norm_num)

/-! ## Frame lemmas for the orchestrator -/

theorem settingsLoop_pres {α : Type} (env : Env) (f : St → α)
    (hEmit : ∀ s p, f (emitPercent s p) = f s)
    (hWrite : ∀ s nm v, f (setParamSettings env s nm v).1 = f s)
    (hXpro : ∀ (s : St) v, f { s with xproAp := v } = f s) :
    ∀ (isL : Bool) (num : Nat) (l : List ProfileSettingVal) (idx prev : Nat)
      (net cache : Bool) (s : St),
      f (settingsLoop env isL num l idx prev net cache s).st = f s := by
  intro isL num l
  induction l with
  | nil => intro idx prev net cache s; rfl
  | cons q rest ih =>
    intro idx prev net cache s
    simp only [settingsLoop]
    repeat' split
    all_goals simp [ih, hEmit, hWrite, hXpro]

theorem acWriteLoop_pres {α : Type} (env : Env) (f : St → α)
    (hWrite : ∀ s nm v, f (setParamSettings env s nm v).1 = f s) :
    ∀ (s : St) (n : Nat), f (acWriteLoop env s n).1 = f s := by
  intro s n
  induction n generalizing s with
  | zero => rfl
  | succ m ih =>
    simp only [acWriteLoop]
    repeat' split
    all_goals simp [ih, hWrite]

theorem settingsFinish_pres {α : Type} (env : Env) (f : St → α)
    (hEmit : ∀ s p, f (emitPercent s p) = f s)
    (hWrite : ∀ s nm v, f (setParamSettings env s nm v).1 = f s) :
    ∀ (num idx prev : Nat) (s : St),
      f (settingsFinish env num idx prev s).1 = f s := by
  intro num idx prev s
  simp only [settingsFinish]
  repeat' split
  all_goals simp [acWriteLoop_pres env f hWrite, hEmit, hWrite]

theorem settingsTryRest_pres {α : Type} (env : Env) (f : St → α)
    (hEmit : ∀ s p, f (emitPercent s p) = f s)
    (hWrite : ∀ s nm v, f (setParamSettings env s nm v).1 = f s)
    (hXpro : ∀ (s : St) v, f { s with xproAp := v } = f s) :
    ∀ (prof : ProfileModel) (tgt : Target) (num idx prev : Nat)
      (net cache : Bool) (sIn : St),
      f (settingsTryRest env prof tgt num idx prev net cache sIn).st = f sIn := by
  intro prof tgt num idx prev net cache sIn
  simp only [settingsTryRest]
  repeat' split
  all_goals simp [settingsLoop_pres env f hEmit hWrite hXpro,
    settingsFinish_pres env f hEmit hWrite]

theorem runSettingsTry_pres {α : Type} (env : Env) (f : St → α)
    (hEmit : ∀ s p, f (emitPercent s p) = f s)
    (hWrite : ∀ s nm v, f (setParamSettings env s nm v).1 = f s)
    (hXpro : ∀ (s : St) v, f { s with xproAp := v } = f s) :
    ∀ (prof : ProfileModel) (tgt : Target) (s0 : St),
      f (runSettingsTry env prof tgt s0).st = f s0 := by
  intro prof tgt s0
  simp only [runSettingsTry]
  repeat' split
  all_goals simp [settingsTryRest_pres env f hEmit hWrite hXpro,
    hEmit, hWrite, hXpro]

theorem afterPort_st (env : Env) (tgt : Target) (pcSet cache : Bool) (s : St) :
    (afterPort env tgt pcSet cache s).1 = s := by
  simp only [afterPort]
  repeat' split
  all_goals rfl

theorem runSettingsTry_st_isOpen (env : Env) (prof : ProfileModel)
    (tgt : Target) (s : St) :
    (runSettingsTry env prof tgt s).st.isOpen = s.isOpen :=
  runSettingsTry_pres env (fun st => st.isOpen) (fun _ _ => rfl)
    (fun _ _ _ => rfl) (fun _ _ => rfl) prof tgt s

theorem runSettingsTry_st_applyChanges (env : Env) (prof : ProfileModel)
    (tgt : Target) (s : St) :
    (runSettingsTry env prof tgt s).st.applyChanges = s.applyChanges :=
  runSettingsTry_pres env (fun st => st.applyChanges) (fun _ _ => rfl)
    (fun _ _ _ => rfl) (fun _ _ => rfl) prof tgt s

theorem runSettingsTry_st_cleanupWrites (env : Env) (prof : ProfileModel)
    (tgt : Target) (s : St) :
    (runSettingsTry env prof tgt s).st.cleanupWrites = s.cleanupWrites :=
  runSettingsTry_pres env (fun st => st.cleanupWrites) (fun _ _ => rfl)
    (fun _ _ _ => rfl) (fun _ _ => rfl) prof tgt s

theorem runSettingsTry_st_flashCount (env : Env) (prof : ProfileModel)
    (tgt : Target) (s : St) :
    (runSettingsTry env prof tgt s).st.flashCount = s.flashCount :=
  runSettingsTry_pres env (fun st => st.flashCount) (fun _ _ => rfl)
    (fun _ _ _ => rfl) (fun _ _ => rfl) prof tgt s

theorem runSettingsTry_st_fsOps (env : Env) (prof : ProfileModel)
    (tgt : Target) (s : St) :
    (runSettingsTry env prof tgt s).st.fsOps = s.fsOps :=
  runSettingsTry_pres env (fun st => st.fsOps) (fun _ _ => rfl)
    (fun _ _ _ => rfl) (fun _ _ => rfl) prof tgt s

theorem updateDeviceSettings_frame (env : Env) (prof : ProfileModel)
    (tgt : Target) (pcFw pcSet : Bool) (s0 : St) :
    (updateDeviceSettings env prof tgt pcFw pcSet s0).1.flashCount = s0.flashCount ∧
    (updateDeviceSettings env prof tgt pcFw pcSet s0).1.fsOps = s0.fsOps ∧
    (updateDeviceSettings env prof tgt pcFw pcSet s0).1.cleanupWrites = s0.cleanupWrites := by
  refine ⟨?_, ?_, ?_⟩ <;>
    · simp only [updateDeviceSettings]
      repeat' split
      all_goals simp [afterPort_st, runSettingsTry_st_flashCount,
        runSettingsTry_st_fsOps, runSettingsTry_st_cleanupWrites]

theorem updateDeviceSettings_remote_isOpen (env : Env) (prof : ProfileModel)
    (pcFw pcSet : Bool) (s0 : St) :
    (updateDeviceSettings env prof Target.remoteDevice pcFw pcSet s0).1.isOpen = s0.isOpen := by
  simp only [updateDeviceSettings]
  repeat' split
  all_goals simp_all [afterPort_st, runSettingsTry_st_isOpen]

theorem updateFileSystem_frame (env : Env) (prof : ProfileModel)
    (tgt : Target) (pcFw pcSet : Bool) (s : St) :
    (updateFileSystem env prof tgt pcFw pcSet s).1.isOpen = s.isOpen ∧
    (updateFileSystem env prof tgt pcFw pcSet s).1.applyChanges = s.applyChanges ∧
    (updateFileSystem env prof tgt pcFw pcSet s).1.settingsWrites = s.settingsWrites ∧
    (updateFileSystem env prof tgt pcFw pcSet s).1.cleanupWrites = s.cleanupWrites ∧
    (updateFileSystem env prof tgt pcFw pcSet s).1.settingsPercentsRev = s.settingsPercentsRev ∧
    (updateFileSystem env prof tgt pcFw pcSet s).1.flashCount = s.flashCount ∧
    (updateFileSystem env prof tgt pcFw pcSet s).1.xproAp = s.xproAp := by
  refine ⟨?_, ?_, ?_, ?_, ?_, ?_, ?_⟩ <;>
    · simp only [updateFileSystem]
      repeat' split
      all_goals rfl

theorem settingsAndFs_frame (env : Env) (prof : ProfileModel)
    (tgt : Target) (pcFw pcSet : Bool) (s : St) :
    (settingsAndFs env prof tgt pcFw pcSet s).1.flashCount = s.flashCount ∧
    (settingsAndFs env prof tgt pcFw pcSet s).1.cleanupWrites = s.cleanupWrites := by
  have hu := updateDeviceSettings_frame env prof tgt pcFw pcSet s
  constructor <;>
    · simp only [settingsAndFs]
      split
      · rename_i s1 e heq
        rw [heq] at hu
        simp_all
      · rename_i s1 heq
        rw [heq] at hu
        repeat' split
        all_goals simp_all [updateFileSystem_frame]

theorem settingsAndFs_remote_isOpen (env : Env) (prof : ProfileModel)
    (pcFw pcSet : Bool) (s : St) :
    (settingsAndFs env prof Target.remoteDevice pcFw pcSet s).1.isOpen = s.isOpen := by
  have hu := updateDeviceSettings_remote_isOpen env prof pcFw pcSet s
  simp only [settingsAndFs]
  split
  · rename_i s1 e heq
    rw [heq] at hu
    simp_all
  · rename_i s1 heq
    rw [heq] at hu
    repeat' split
    all_goals simp_all [updateFileSystem_frame]

theorem cleanupApRestore_frame (env : Env) (isLocal : Bool) (s : St) :
    (cleanupApRestore env isLocal s).1.settingsWrites = s.settingsWrites ∧
    (cleanupApRestore env isLocal s).1.settingsPercentsRev = s.settingsPercentsRev ∧
    (cleanupApRestore env isLocal s).1.flashCount = s.flashCount ∧
    (cleanupApRestore env isLocal s).1.fsOps = s.fsOps ∧
    (cleanupApRestore env isLocal s).1.xproAp = s.xproAp ∧
    (cleanupApRestore env isLocal s).1.isOpen = s.isOpen := by
  refine ⟨?_, ?_, ?_, ?_, ?_, ?_⟩ <;>
    · simp only [cleanupApRestore, setParamCleanup]
      repeat' split
      all_goals rfl

theorem cleanupRun_frame (env : Env) (tgt : Target) (wc : Bool)
    (oldT : Option Nat) (tn : Nat) (hd : Bool) (s : St) (e : Option UpdErr) :
    (cleanupRun env tgt wc oldT tn hd s e).st.settingsWrites = s.settingsWrites ∧
    (cleanupRun env tgt wc oldT tn hd s e).st.settingsPercentsRev = s.settingsPercentsRev ∧
    (cleanupRun env tgt wc oldT tn hd s e).st.flashCount = s.flashCount ∧
    (cleanupRun env tgt wc oldT tn hd s e).st.fsOps = s.fsOps ∧
    (cleanupRun env tgt wc oldT tn hd s e).st.xproAp = s.xproAp := by
  have ha := cleanupApRestore_frame env (decide (tgt ≠ Target.remoteDevice)) s
  refine ⟨?_, ?_, ?_, ?_, ?_⟩ <;>
    · simp only [cleanupRun]
      repeat' split
      all_goals simp_all

theorem cleanupRun_remote_isOpen (env : Env) (wc : Bool) (oldT : Option Nat)
    (tn : Nat) (hd : Bool) (s : St) (e : Option UpdErr) :
    (cleanupRun env Target.remoteDevice wc oldT tn hd s e).st.isOpen = s.isOpen := by
  have ha := cleanupApRestore_frame env
    (decide (Target.remoteDevice ≠ Target.remoteDevice)) s
  simp only [cleanupRun]
  repeat' split
  all_goals simp_all

theorem bodyAfterParams_hasDev (env : Env) (prof : ProfileModel) (tgt : Target)
    (fw : Nat) (pcFw pcSet : Bool) (s : St) (h : tgt ≠ Target.serialPort) :
    (bodyAfterParams env prof tgt fw pcFw pcSet s).hasDeviceEnd = true := by
  simp only [bodyAfterParams]
  repeat' split
  all_goals simp_all

theorem runBody_hasDev (env : Env) (prof : ProfileModel) (tgt : Target)
    (s : St) (h : tgt ≠ Target.serialPort) :
    (runBody env prof tgt s).hasDeviceEnd = true := by
  cases tgt with
  | serialPort => exact absurd rfl h
  | localDevice =>
    simp only [runBody]
    repeat' split
    all_goals first
      | rfl
      | exact bodyAfterParams_hasDev env prof _ _ _ _ _ (by decide)
  | remoteDevice =>
    simp only [runBody]
    repeat' split
    all_goals first
      | rfl
      | exact bodyAfterParams_hasDev env prof _ _ _ _ _ (by decide)

theorem bodyAfterParams_remote_isOpen (env : Env) (prof : ProfileModel)
    (fw : Nat) (pcFw pcSet : Bool) (s : St) :
    (bodyAfterParams env prof Target.remoteDevice fw pcFw pcSet s).st.isOpen = s.isOpen := by
  simp only [bodyAfterParams]
  repeat' split
  all_goals simp_all [settingsAndFs_remote_isOpen]

theorem runBody_remote_isOpen (env : Env) (prof : ProfileModel) (s : St) :
    (runBody env prof Target.remoteDevice s).st.isOpen = s.isOpen := by
  simp only [runBody]
  repeat' split
  all_goals simp [bodyAfterParams_remote_isOpen]

theorem cleanupRun_restores (env : Env) (tgt : Target) (wc : Bool) (t tn : Nat)
    (hd : Bool) (s : St) (e : Option UpdErr)
    (h : (cleanupRun env tgt wc (some t) tn hd s e).outcome ≠ Outcome.cleanupError) :
    (cleanupRun env tgt wc (some t) tn hd s e).timeoutAfter = t ∧
    (tgt ≠ Target.remoteDevice → hd = true →
      (cleanupRun env tgt wc (some t) tn hd s e).st.isOpen = wc) := by
  by_cases h1 : (cleanupApRestore env (decide (tgt ≠ Target.remoteDevice)) s).2 = false
  · exfalso
    apply h
    simp only [cleanupRun, if_pos h1]
  · simp only [cleanupRun, if_neg h1] at h ⊢
    repeat' split
    all_goals refine ⟨rfl, fun htgt hhd => ?_⟩
    all_goals solve
      | simp_all
      | (cases wc <;> simp_all)

theorem cleanupRun_simple (env : Env) (tgt : Target) (wc : Bool)
    (oldT : Option Nat) (tn : Nat) (hd : Bool) (s : St) (e : Option UpdErr)
    (hx : s.xproAp = none) (hOp : s.isOpen = true) :
    (cleanupRun env tgt wc oldT tn hd s e).outcome = outcomeOf e := by
  simp only [cleanupRun, cleanupApRestore, hx, apRestoreCond]
  repeat' split
  all_goals simp_all

/-! ## Claim theorems: orchestrator -/

/-- C1: for every `update_profile` run on a device-handle target (local or
remote), on every exit path of the enumerated kinds — normal completion or
an update error raised in the parameter-read, firmware, settings, or
filesystem phase (that is, every exit whose finally block itself did not
raise, `outcome ≠ cleanupError`) — the device's synchronous-operation
timeout is restored to its pre-call value and the connection is restored to
its phase-1 open/closed state. -/
theorem c1_cleanup_restores_connection_and_timeout
    (env : Env) (prof : ProfileModel) (tgt : Target) (ct dt : Nat)
    (dOpen dApply : Bool)
    (htgt : tgt = Target.localDevice ∨ tgt = Target.remoteDevice)
    (hoc : (updateProfile env prof tgt ct dt dOpen dApply).outcome ≠
      Outcome.cleanupError) :
    (updateProfile env prof tgt ct dt dOpen dApply).finalTimeout = dt ∧
    (updateProfile env prof tgt ct dt dOpen dApply).finalSt.isOpen = dOpen := by
  cases htgt with
  | inl h =>
    subst h
    simp only [updateProfile] at hoc ⊢
    rw [if_neg (by decide : ¬ Target.localDevice = Target.serialPort)] at hoc ⊢
    rw [runBody_hasDev env prof Target.localDevice _ (by decide)] at hoc ⊢
    have hr := cleanupRun_restores env Target.localDevice dOpen dt ct true
      (runBody env prof Target.localDevice (initialSt dOpen dApply)).st
      (runBody env prof Target.localDevice (initialSt dOpen dApply)).err hoc
    exact ⟨hr.1, hr.2 (by decide) rfl⟩
  | inr h =>
    subst h
    simp only [updateProfile] at hoc ⊢
    rw [if_neg (by decide : ¬ Target.remoteDevice = Target.serialPort)] at hoc ⊢
    rw [runBody_hasDev env prof Target.remoteDevice _ (by decide)] at hoc ⊢
    refine ⟨(cleanupRun_restores env Target.remoteDevice true dt ct true _ _ hoc).1, ?_⟩
    rw [cleanupRun_remote_isOpen, runBody_remote_isOpen]
    rfl

/-- Witness for C1: a local-device run whose filesystem collaborator fails
(the profile carries a local filesystem payload and every filesystem call
errors): the run fails in the filesystem phase, yet the timeout (7) and the
open state (open at entry) are restored. -/
theorem c1_witness :
    (updateProfile envFsFails profFs Target.localDevice 3 7 true true).outcome =
      Outcome.fail UpdErr.updateFilesystem ∧
    (updateProfile envFsFails profFs Target.localDevice 3 7 true true).finalTimeout = 7 ∧
    (updateProfile envFsFails profFs Target.localDevice 3 7 true true).finalSt.isOpen = true := by
  refine ⟨by decide, ?_, ?_⟩
  · exact (c1_cleanup_restores_connection_and_timeout envFsFails profFs
      Target.localDevice 3 7 true true (Or.inl rfl) (by decide)).1
  · exact (c1_cleanup_restores_connection_and_timeout envFsFails profFs
      Target.localDevice 3 7 true true (Or.inl rfl) (by decide)).2

theorem cleanupRun_remote_outcome (env : Env) (wc : Bool) (oldT : Option Nat)
    (tn : Nat) (hd : Bool) (s : St) (e : Option UpdErr)
    (hx : s.xproAp = none) :
    (cleanupRun env Target.remoteDevice wc oldT tn hd s e).outcome = outcomeOf e := by
  simp only [cleanupRun, cleanupApRestore, hx, apRestoreCond]
  repeat' split
  all_goals simp_all

theorem cleanupRun_noAp_writes (env : Env) (tgt : Target) (wc : Bool)
    (oldT : Option Nat) (tn : Nat) (hd : Bool) (s : St) (e : Option UpdErr)
    (hx : s.xproAp = none) :
    (cleanupRun env tgt wc oldT tn hd s e).st.cleanupWrites = s.cleanupWrites := by
  simp only [cleanupRun, cleanupApRestore, hx, apRestoreCond]
  repeat' split
  all_goals simp_all

/-- C5: a `DONT_FLASH` profile whose firmware version differs from the one
read from the device fails with the firmware-incompatible error, after the
parameter-read phase succeeded, and performs zero parameter writes (both
settings-phase and cleanup-phase) and zero filesystem collaborator calls. -/
theorem c5_dontflash_mismatch_fails_early
    (env : Env) (prof : ProfileModel) (tgt : Target) (ct dt : Nat)
    (dOpen dApply : Bool)
    (htgt : tgt = Target.localDevice ∨ tgt = Target.remoteDevice)
    (hopt : prof.flashFirmwareOption = FlashFirmwareOption.dontFlash)
    (hopen : tgt = Target.localDevice → dOpen = true ∨ env.openOk = true)
    (hread : tgt = Target.remoteDevice → env.vrReadOk = true ∧ env.hvReadOk = true)
    (hhw : env.deviceHardwareVersion = prof.hardwareVersion)
    (hfw : env.deviceFirmwareVersion ≠ prof.firmwareVersion) :
    (updateProfile env prof tgt ct dt dOpen dApply).outcome =
      Outcome.fail UpdErr.firmwareNotCompatible ∧
    (updateProfile env prof tgt ct dt dOpen dApply).finalSt.settingsWrites = [] ∧
    (updateProfile env prof tgt ct dt dOpen dApply).finalSt.cleanupWrites = [] ∧
    (updateProfile env prof tgt ct dt dOpen dApply).finalSt.fsOps = 0 := by
  have hsame : (env.deviceFirmwareVersion == prof.firmwareVersion) = false := by
    simp [hfw]
  cases htgt with
  | inl h =>
    subst h
    have hb : runBody env prof Target.localDevice (initialSt dOpen dApply) =
        ⟨if (initialSt dOpen dApply).isOpen then initialSt dOpen dApply
          else { initialSt dOpen dApply with isOpen := true }, true,
          some UpdErr.firmwareNotCompatible⟩ := by
      simp only [runBody]
      rw [if_neg (by rcases hopen rfl with h' | h' <;> simp [initialSt, h'])]
      rw [if_neg (by simp [hhw])]
      simp only [bodyAfterParams, hopt, hsame]
      simp
    simp only [updateProfile]
    rw [if_neg (by decide : ¬ Target.localDevice = Target.serialPort)]
    rw [hb]
    refine ⟨?_, ?_, ?_, ?_⟩
    · exact (cleanupRun_simple env Target.localDevice dOpen (some dt) ct true _ _
        (by cases dOpen <;> rfl) (by cases dOpen <;> rfl)).trans rfl
    · exact ((cleanupRun_frame env Target.localDevice dOpen (some dt) ct true
        _ _).1).trans (by cases dOpen <;> rfl)
    · exact (cleanupRun_noAp_writes env Target.localDevice dOpen (some dt) ct
        true _ _ (by cases dOpen <;> rfl)).trans (by cases dOpen <;> rfl)
    · exact ((cleanupRun_frame env Target.localDevice dOpen (some dt) ct true
        _ _).2.2.2.1).trans (by cases dOpen <;> rfl)
  | inr h =>
    subst h
    have hb : runBody env prof Target.remoteDevice (initialSt dOpen dApply) =
        ⟨initialSt dOpen dApply, true, some UpdErr.firmwareNotCompatible⟩ := by
      simp only [runBody]
      rw [if_neg (by simp [(hread rfl).1, (hread rfl).2])]
      rw [if_neg (by simp [hhw])]
      simp only [bodyAfterParams, hopt, hsame]
      simp
    simp only [updateProfile]
    rw [if_neg (by decide : ¬ Target.remoteDevice = Target.serialPort)]
    rw [hb]
    refine ⟨?_, ?_, ?_, ?_⟩
    · exact (cleanupRun_remote_outcome env true (some dt) ct true _ _ rfl).trans rfl
    · exact ((cleanupRun_frame env Target.remoteDevice true (some dt) ct true
        _ _).1).trans rfl
    · exact (cleanupRun_noAp_writes env Target.remoteDevice true (some dt) ct
        true _ _ rfl).trans rfl
    · exact ((cleanupRun_frame env Target.remoteDevice true (some dt) ct true
        _ _).2.2.2.1).trans rfl

/-- Witness for C5: concrete `DONT_FLASH` profile demanding firmware 101 on
a device running firmware 100. -/
theorem c5_witness :
    (updateProfile envOk profDontFlash Target.localDevice 3 7 true true).outcome =
      Outcome.fail UpdErr.firmwareNotCompatible ∧
    (updateProfile envOk profDontFlash Target.localDevice 3 7 true true).finalSt.settingsWrites = [] ∧
    (updateProfile envOk profDontFlash Target.localDevice 3 7 true true).finalSt.cleanupWrites = [] ∧
    (updateProfile envOk profDontFlash Target.localDevice 3 7 true true).finalSt.fsOps = 0 :=
  c5_dontflash_mismatch_fails_early envOk profDontFlash Target.localDevice 3 7
    true true (Or.inl rfl) rfl (fun _ => Or.inl rfl)
    (fun h => absurd h (by decide)) rfl (by decide)

theorem bodyAfterParams_no_flash (env : Env) (prof : ProfileModel)
    (tgt : Target) (fw : Nat) (pcFw pcSet : Bool) (s : St)
    (htgt : tgt ≠ Target.serialPort)
    (hopt : prof.flashFirmwareOption = FlashFirmwareOption.flashDifferent)
    (hfw : fw = prof.firmwareVersion) :
    (bodyAfterParams env prof tgt fw pcFw pcSet s).st.flashCount = s.flashCount := by
  have hsame : (fw == prof.firmwareVersion) = true := by simp [hfw]
  simp only [bodyAfterParams, hopt, hsame]
  rw [if_neg (by simp)]
  rw [if_neg (by simp [htgt])]
  rw [if_neg htgt]
  exact (settingsAndFs_frame env prof tgt pcFw pcSet s).1

theorem runBody_no_flash (env : Env) (prof : ProfileModel) (tgt : Target)
    (s : St)
    (htgt : tgt = Target.localDevice ∨ tgt = Target.remoteDevice)
    (hopt : prof.flashFirmwareOption = FlashFirmwareOption.flashDifferent)
    (hfw : env.deviceFirmwareVersion = prof.firmwareVersion) :
    (runBody env prof tgt s).st.flashCount = s.flashCount := by
  cases htgt with
  | inl h =>
    subst h
    simp only [runBody]
    repeat' split
    all_goals solve
      | rfl
      | exact (bodyAfterParams_no_flash env prof _ _ _ _ _ (by decide) hopt
          hfw).trans rfl
  | inr h =>
    subst h
    simp only [runBody]
    repeat' split
    all_goals solve
      | rfl
      | exact bodyAfterParams_no_flash env prof _ _ _ _ _ (by decide) hopt hfw

/-- C6: under `FLASH_DIFFERENT` on a device-handle target whose firmware
version already equals the profile's, the firmware-flash collaborator is
never invoked: its call counter is zero at the end of the run, whatever the
other collaborators do. -/
theorem c6_flash_if_different_idempotent
    (env : Env) (prof : ProfileModel) (tgt : Target) (ct dt : Nat)
    (dOpen dApply : Bool)
    (htgt : tgt = Target.localDevice ∨ tgt = Target.remoteDevice)
    (hopt : prof.flashFirmwareOption = FlashFirmwareOption.flashDifferent)
    (hfw : env.deviceFirmwareVersion = prof.firmwareVersion) :
    (updateProfile env prof tgt ct dt dOpen dApply).finalSt.flashCount = 0 := by
  simp only [updateProfile]
  rw [(cleanupRun_frame env tgt _ _ _ _ _ _).2.2.1]
  rw [runBody_no_flash env prof tgt _ htgt hopt hfw]
  rfl

/-- Witness for C6: concrete `FLASH_DIFFERENT` run with matching firmware
versions. -/
theorem c6_witness :
    (updateProfile envOk profBase Target.localDevice 3 7 true true).finalSt.flashCount = 0 :=
  c6_flash_if_different_idempotent envOk profBase Target.localDevice 3 7 true
    true (Or.inl rfl) rfl rfl

/-! ## Settings-phase progress invariants (for C4) -/

theorem stepPercent_lt_100 (num i : Nat) (h : i < num) : i * 100 / num < 100 := by
  rw [Nat.div_lt_iff_lt_mul (by omega : 0 < num)]
  omega

theorem stepPercent_mono (num idx : Nat) : idx * 100 / num ≤ (idx + 1) * 100 / num :=
  Nat.div_le_div_right (by omega)

theorem percInv_emit (num idx prev : Nat) (s : St) (hidx : idx < num)
    (hinv : percInv num idx prev s) (hne : idx * 100 / num ≠ prev) :
    percInv num (idx + 1) (idx * 100 / num)
      (emitPercent s (idx * 100 / num)) := by
  obtain ⟨hhead, hchain, hmem, hprev⟩ := hinv
  have hlt : prev < idx * 100 / num := lt_of_le_of_ne hprev (Ne.symm hne)
  refine ⟨rfl, ?_, ?_, ?_⟩
  · show List.Chain' (fun a b => b < a) (idx * 100 / num :: s.settingsPercentsRev)
    rw [List.chain'_cons']
    refine ⟨fun b hb => ?_, hchain⟩
    rw [hhead] at hb
    simp at hb
    omega
  · intro p hp
    have hp' : p ∈ idx * 100 / num :: s.settingsPercentsRev := hp
    rcases List.mem_cons.mp hp' with h1 | h1
    · exact ⟨idx, hidx, h1⟩
    · exact hmem p h1
  · exact stepPercent_mono num idx

theorem percInv_skip (num idx prev : Nat) (s : St)
    (hinv : percInv num idx prev s) : percInv num (idx + 1) prev s :=
  ⟨hinv.1, hinv.2.1, hinv.2.2.1, le_trans hinv.2.2.2 (stepPercent_mono num idx)⟩

theorem percInv_congr (num idx prev : Nat) {s t : St}
    (h : t.settingsPercentsRev = s.settingsPercentsRev)
    (hinv : percInv num idx prev s) : percInv num idx prev t := by
  unfold percInv at *
  rw [h]
  exact hinv

theorem percInv_step (num idx prev : Nat) (s : St) (hidx : idx < num)
    (hinv : percInv num idx prev s) :
    percInv num (idx + 1)
      (if idx * 100 / num ≠ prev
        then ((emitPercent s (idx * 100 / num), idx * 100 / num) : St × Nat)
        else (s, prev)).2
      (if idx * 100 / num ≠ prev
        then ((emitPercent s (idx * 100 / num), idx * 100 / num) : St × Nat)
        else (s, prev)).1 := by
  split
  · exact percInv_emit num idx prev s hidx hinv (by assumption)
  · exact percInv_skip num idx prev s hinv

theorem percInv_step_same (num idx prev : Nat) (s : St) (hidx : idx < num)
    (hinv : percInv num idx prev s) :
    percInv num idx
      (if idx * 100 / num ≠ prev
        then ((emitPercent s (idx * 100 / num), idx * 100 / num) : St × Nat)
        else (s, prev)).2
      (if idx * 100 / num ≠ prev
        then ((emitPercent s (idx * 100 / num), idx * 100 / num) : St × Nat)
        else (s, prev)).1 := by
  split
  · obtain ⟨a, b, c, -⟩ := percInv_emit num idx prev s hidx hinv (by assumption)
    exact ⟨a, b, c, le_refl _⟩
  · exact hinv

theorem settingsLoop_inv (env : Env) (isL : Bool) (num : Nat) :
    ∀ (l : List ProfileSettingVal) (idx prev : Nat) (net cache : Bool) (s : St),
      idx + l.length + 1 = num →
      percInv num idx prev s →
      percInv num (settingsLoop env isL num l idx prev net cache s).idx
        (settingsLoop env isL num l idx prev net cache s).prev
        (settingsLoop env isL num l idx prev net cache s).st ∧
      ((settingsLoop env isL num l idx prev net cache s).ok = true →
        (settingsLoop env isL num l idx prev net cache s).idx = idx + l.length) ∧
      (settingsLoop env isL num l idx prev net cache s).idx + 1 ≤ num := by
  intro l
  induction l with
  | nil =>
    intro idx prev net cache s h hinv
    refine ⟨hinv, fun _ => rfl, ?_⟩
    show idx + 1 ≤ num
    simp only [List.length_nil] at h
    omega
  | cons q rest ih =>
    intro idx prev net cache s h hinv
    simp only [List.length_cons] at h
    have hidx : idx < num := by omega
    by_cases hc : idx * 100 / num ≠ prev
    · have hstep := percInv_emit num idx prev s hidx hinv hc
      simp only [settingsLoop, if_pos hc]
      split
      · obtain ⟨h1, h2, h3⟩ := ih (idx + 1) (idx * 100 / num)
          (net || decide (pyUpper q.name ∈ parametersNetwork))
          (cache || decide (pyUpper q.name ∈ parametersCache))
          { emitPercent s (idx * 100 / num) with xproAp := some q.value }
          (by omega)
          (percInv_congr num (idx + 1) (idx * 100 / num) rfl hstep)
        refine ⟨h1, fun hok => ?_, h3⟩
        rw [h2 hok]
        simp only [List.length_cons]
        omega
      · split
        · obtain ⟨h1, h2, h3⟩ := ih (idx + 1) (idx * 100 / num)
            (net || decide (pyUpper q.name ∈ parametersNetwork))
            (cache || decide (pyUpper q.name ∈ parametersCache))
            (setParamSettings env (emitPercent s (idx * 100 / num))
              (pyUpper q.name) q.value).1
            (by omega)
            (percInv_congr num (idx + 1) (idx * 100 / num) rfl hstep)
          refine ⟨h1, fun hok => ?_, h3⟩
          rw [h2 hok]
          simp only [List.length_cons]
          omega
        · obtain ⟨a, b, c, -⟩ := hstep
          refine ⟨⟨a, b, c, le_refl _⟩, fun hok => ?_, ?_⟩
          · simp at hok
          · show idx + 1 ≤ num
            omega
    · have hskip := percInv_skip num idx prev s hinv
      simp only [settingsLoop, if_neg hc]
      split
      · obtain ⟨h1, h2, h3⟩ := ih (idx + 1) prev
          (net || decide (pyUpper q.name ∈ parametersNetwork))
          (cache || decide (pyUpper q.name ∈ parametersCache))
          { s with xproAp := some q.value }
          (by omega)
          (percInv_congr num (idx + 1) prev rfl hskip)
        refine ⟨h1, fun hok => ?_, h3⟩
        rw [h2 hok]
        simp only [List.length_cons]
        omega
      · split
        · obtain ⟨h1, h2, h3⟩ := ih (idx + 1) prev
            (net || decide (pyUpper q.name ∈ parametersNetwork))
            (cache || decide (pyUpper q.name ∈ parametersCache))
            (setParamSettings env s (pyUpper q.name) q.value).1
            (by omega)
            (percInv_congr num (idx + 1) prev rfl hskip)
          refine ⟨h1, fun hok => ?_, h3⟩
          rw [h2 hok]
          simp only [List.length_cons]
          omega
        · refine ⟨⟨hinv.1, hinv.2.1, hinv.2.2.1, hinv.2.2.2⟩, fun hok => ?_, ?_⟩
          · simp at hok
          · show idx + 1 ≤ num
            omega

theorem acWriteLoop_writes_mono (env : Env) :
    ∀ (n : Nat) (s : St), ∃ d,
      (acWriteLoop env s n).1.settingsWrites = s.settingsWrites ++ d := by
  intro n
  induction n with
  | zero => intro s; exact ⟨[], by simp [acWriteLoop]⟩
  | succ m ih =>
    intro s
    simp only [acWriteLoop]
    split
    · exact ⟨[⟨"AC", [], env.writeOk s.writeIdx⟩], rfl⟩
    · obtain ⟨d, hd⟩ := ih (setParamSettings env s "AC" []).1
      refine ⟨⟨"AC", [], env.writeOk s.writeIdx⟩ :: d, ?_⟩
      rw [hd]
      simp [setParamSettings]

theorem acWriteLoop_percents (env : Env) (s : St) (n : Nat) :
    (acWriteLoop env s n).1.settingsPercentsRev = s.settingsPercentsRev :=
  acWriteLoop_pres env (fun st => st.settingsPercentsRev) (fun _ _ _ => rfl) s n

theorem acWriteLoop_has_ac (env : Env) (n : Nat) (s : St) (h : 1 ≤ n) :
    ∃ w ∈ (acWriteLoop env s n).1.settingsWrites, w.name = "AC" := by
  obtain ⟨m, rfl⟩ : ∃ m, n = m + 1 := ⟨n - 1, by omega⟩
  simp only [acWriteLoop]
  split
  · exact ⟨⟨"AC", [], env.writeOk s.writeIdx⟩, by simp [setParamSettings], rfl⟩
  · obtain ⟨d, hd⟩ := acWriteLoop_writes_mono env m (setParamSettings env s "AC" []).1
    refine ⟨⟨"AC", [], env.writeOk s.writeIdx⟩, ?_, rfl⟩
    rw [hd]
    simp [setParamSettings]

theorem settingsFinish_inv (env : Env) (num idx prev : Nat) (s : St)
    (hidx : idx + 1 = num)
    (hinv : percInv num idx prev s) :
    List.Chain' (fun a b => b < a)
      (settingsFinish env num idx prev s).1.settingsPercentsRev ∧
    (∀ p ∈ (settingsFinish env num idx prev s).1.settingsPercentsRev,
      ∃ i, i ≤ num ∧ p = i * 100 / num) ∧
    (100 ∈ (settingsFinish env num idx prev s).1.settingsPercentsRev →
      ∃ w ∈ (settingsFinish env num idx prev s).1.settingsWrites, w.name = "AC") := by
  have hidx' : idx < num := by omega
  have h100 : (idx + 1) * 100 / num = 100 := by
    rw [hidx]
    exact Nat.mul_div_cancel_left 100 (by omega)
  have hlt100 : idx * 100 / num < 100 := stepPercent_lt_100 num idx hidx'
  by_cases hc : idx * 100 / num ≠ prev
  · obtain ⟨ha, hb, hm, -⟩ := percInv_emit num idx prev s hidx' hinv hc
    simp only [settingsFinish, if_pos hc]
    by_cases hwr : (setParamSettings env (emitPercent s (idx * 100 / num))
        "WR" []).2 = true
    · rw [if_pos hwr, h100, if_pos (ne_of_gt hlt100)]
      refine ⟨?_, ?_, fun _ => acWriteLoop_has_ac env 3 _ (by omega)⟩
      · rw [acWriteLoop_percents]
        show List.Chain' (fun a b => b < a)
          (100 :: (emitPercent s (idx * 100 / num)).settingsPercentsRev)
        rw [List.chain'_cons']
        refine ⟨fun b hb2 => ?_, hb⟩
        rw [ha] at hb2
        simp at hb2
        omega
      · intro p hp
        rw [acWriteLoop_percents] at hp
        have hp' : p ∈ 100 :: (emitPercent s (idx * 100 / num)).settingsPercentsRev := hp
        rcases List.mem_cons.mp hp' with h1 | h1
        · have hnum100 : num * 100 / num = 100 :=
            Nat.mul_div_cancel_left 100 (by omega)
          exact ⟨num, le_refl num, by rw [h1, hnum100]⟩
        · obtain ⟨i, hi, hpi⟩ := hm p h1
          exact ⟨i, by omega, hpi⟩
    · rw [if_neg hwr]
      refine ⟨hb, ?_, ?_⟩
      · intro p hp
        obtain ⟨i, hi, hpi⟩ := hm p hp
        exact ⟨i, by omega, hpi⟩
      · intro h100mem
        obtain ⟨i, hi, hpi⟩ := hm 100 h100mem
        have := stepPercent_lt_100 num i hi
        omega
  · obtain ⟨ha, hb, hm, hle⟩ := hinv
    simp only [settingsFinish, if_neg hc]
    have hlt : prev < 100 := by omega
    by_cases hwr : (setParamSettings env s "WR" []).2 = true
    · rw [if_pos hwr, h100, if_pos (by omega : (100 : Nat) ≠ prev)]
      refine ⟨?_, ?_, fun _ => acWriteLoop_has_ac env 3 _ (by omega)⟩
      · rw [acWriteLoop_percents]
        show List.Chain' (fun a b => b < a) (100 :: s.settingsPercentsRev)
        rw [List.chain'_cons']
        refine ⟨fun b hb2 => ?_, hb⟩
        rw [ha] at hb2
        simp at hb2
        omega
      · intro p hp
        rw [acWriteLoop_percents] at hp
        have hp' : p ∈ 100 :: s.settingsPercentsRev := hp
        rcases List.mem_cons.mp hp' with h1 | h1
        · have hnum100 : num * 100 / num = 100 :=
            Nat.mul_div_cancel_left 100 (by omega)
          exact ⟨num, le_refl num, by rw [h1, hnum100]⟩
        · obtain ⟨i, hi, hpi⟩ := hm p h1
          exact ⟨i, by omega, hpi⟩
    · rw [if_neg hwr]
      refine ⟨hb, ?_, ?_⟩
      · intro p hp
        obtain ⟨i, hi, hpi⟩ := hm p hp
        exact ⟨i, by omega, hpi⟩
      · intro h100mem
        obtain ⟨i, hi, hpi⟩ := hm 100 h100mem
        have := stepPercent_lt_100 num i hi
        omega

theorem settingsTryRest_inv (env : Env) (prof : ProfileModel) (tgt : Target)
    (num idx prev : Nat) (net cache : Bool) (sIn : St)
    (hlen : idx + prof.profileSettings.length + 1 = num)
    (hinv : percInv num idx prev sIn) :
    List.Chain' (fun a b => b < a)
      (settingsTryRest env prof tgt num idx prev net cache sIn).st.settingsPercentsRev ∧
    (∀ p ∈ (settingsTryRest env prof tgt num idx prev net cache sIn).st.settingsPercentsRev,
      ∃ i, i ≤ num ∧ p = i * 100 / num) ∧
    (100 ∈ (settingsTryRest env prof tgt num idx prev net cache sIn).st.settingsPercentsRev →
      ∃ w ∈ (settingsTryRest env prof tgt num idx prev net cache sIn).st.settingsWrites,
        w.name = "AC") := by
  obtain ⟨hL1, hL2, hL3⟩ := settingsLoop_inv env
    (decide (tgt ≠ Target.remoteDevice)) num prof.profileSettings idx prev
    net cache sIn hlen hinv
  simp only [settingsTryRest]
  by_cases hok : (settingsLoop env (decide (tgt ≠ Target.remoteDevice)) num
      prof.profileSettings idx prev net cache sIn).ok = true
  · rw [if_pos hok]
    exact settingsFinish_inv env num _ _ _ (by rw [hL2 hok]; omega) hL1
  · rw [if_neg hok]
    obtain ⟨ha, hb, hm, -⟩ := hL1
    refine ⟨hb, ?_, ?_⟩
    · intro p hp
      obtain ⟨i, hi, hpi⟩ := hm p hp
      exact ⟨i, by omega, hpi⟩
    · intro h100mem
      obtain ⟨i, hi, hpi⟩ := hm 100 h100mem
      have := stepPercent_lt_100 num i hi
      omega

theorem runSettingsTry_inv (env : Env) (prof : ProfileModel) (tgt : Target)
    (s0 : St) (hrev : s0.settingsPercentsRev = []) :
    List.Chain' (fun a b => b < a)
      (runSettingsTry env prof tgt s0).st.settingsPercentsRev ∧
    (∀ p ∈ (runSettingsTry env prof tgt s0).st.settingsPercentsRev,
      ∃ i, i ≤ totalSteps prof tgt ∧ p = i * 100 / totalSteps prof tgt) ∧
    (100 ∈ (runSettingsTry env prof tgt s0).st.settingsPercentsRev →
      ∃ w ∈ (runSettingsTry env prof tgt s0).st.settingsWrites, w.name = "AC") := by
  by_cases hr : prof.resetSettings = true ∨ tgt = Target.serialPort
  · have hnum : totalSteps prof tgt = prof.profileSettings.length + 3 := by
      simp [totalSteps, if_pos hr]
    rw [hnum]
    set num := prof.profileSettings.length + 3 with hnumdef
    have hinv1 : percInv num 1 0 (emitPercent s0 0) := by
      refine ⟨rfl, ?_, ?_, Nat.zero_le _⟩
      · show List.Chain' (fun a b => b < a) (0 :: s0.settingsPercentsRev)
        rw [hrev]
        simp
      · intro p hp
        have hp' : p ∈ 0 :: s0.settingsPercentsRev := hp
        rw [hrev] at hp'
        simp at hp'
        exact ⟨0, by omega, by simp [hp']⟩
    have hstep := percInv_step num 1 0 (emitPercent s0 0) (by omega) hinv1
    simp only [runSettingsTry, if_pos hr]
    by_cases hre : (setParamSettings env
        (if 1 * 100 / num ≠ 0
          then ((emitPercent (emitPercent s0 0) (1 * 100 / num), 1 * 100 / num) : St × Nat)
          else (emitPercent s0 0, 0)).1 "RE" []).2 = true
    · rw [if_pos hre]
      by_cases hloc : tgt ≠ Target.remoteDevice
      · rw [if_pos hloc]
        by_cases hap : (setParamSettings env
            { (setParamSettings env
                (if 1 * 100 / num ≠ 0
                  then ((emitPercent (emitPercent s0 0) (1 * 100 / num), 1 * 100 / num) : St × Nat)
                  else (emitPercent s0 0, 0)).1 "RE" []).1 with xproAp := some [0] }
            "AP" [env.opModeAtSettings]).2 = true
        · rw [if_pos hap]
          exact settingsTryRest_inv env prof tgt num 2 _ true true _
            (by simp [hnumdef]; omega)
            (percInv_congr num 2 _ rfl hstep)
        · rw [if_neg hap]
          obtain ⟨ha, hb, hm, -⟩ := hstep
          refine ⟨hb, ?_, ?_⟩
          · intro p hp
            obtain ⟨i, hi, hpi⟩ := hm p hp
            exact ⟨i, by omega, hpi⟩
          · intro h100mem
            obtain ⟨i, hi, hpi⟩ := hm 100 h100mem
            have := stepPercent_lt_100 num i hi
            omega
      · rw [if_neg hloc]
        exact settingsTryRest_inv env prof tgt num 2 _ true true _
          (by simp [hnumdef]; omega)
          (percInv_congr num 2 _ rfl hstep)
    · rw [if_neg hre]
      obtain ⟨ha, hb, hm, -⟩ := hstep
      refine ⟨hb, ?_, ?_⟩
      · intro p hp
        obtain ⟨i, hi, hpi⟩ := hm p hp
        exact ⟨i, by omega, hpi⟩
      · intro h100mem
        obtain ⟨i, hi, hpi⟩ := hm 100 h100mem
        have := stepPercent_lt_100 num i hi
        omega
  · have hnum : totalSteps prof tgt = prof.profileSettings.length + 2 := by
      simp [totalSteps, if_neg hr]
    rw [hnum]
    have hinv1 : percInv (prof.profileSettings.length + 2) 1 0 (emitPercent s0 0) := by
      refine ⟨rfl, ?_, ?_, Nat.zero_le _⟩
      · show List.Chain' (fun a b => b < a) (0 :: s0.settingsPercentsRev)
        rw [hrev]
        simp
      · intro p hp
        have hp' : p ∈ 0 :: s0.settingsPercentsRev := hp
        rw [hrev] at hp'
        simp at hp'
        exact ⟨0, by omega, by simp [hp']⟩
    simp only [runSettingsTry, if_neg hr]
    exact settingsTryRest_inv env prof tgt (prof.profileSettings.length + 2)
      1 0 false false (emitPercent s0 0) (by omega) hinv1

theorem percProp_nil (num : Nat) (s : St)
    (h : s.settingsPercentsRev = []) : percProp num s := by
  refine ⟨?_, ?_, ?_⟩ <;> simp [percProp, h]

theorem percProp_congr (num : Nat) (s t : St)
    (h1 : t.settingsPercentsRev = s.settingsPercentsRev)
    (h2 : t.settingsWrites = s.settingsWrites) :
    percProp num s → percProp num t := by
  intro hp
  obtain ⟨a, b, c⟩ := hp
  refine ⟨by rw [h1]; exact a, by rw [h1]; exact b, ?_⟩
  rw [h1, h2]
  exact c

theorem updateDeviceSettings_inv (env : Env) (prof : ProfileModel)
    (tgt : Target) (pcFw pcSet : Bool) (s0 : St)
    (hrev : s0.settingsPercentsRev = []) :
    percProp (totalSteps prof tgt)
      (updateDeviceSettings env prof tgt pcFw pcSet s0).1 := by
  obtain ⟨ht1, ht2, ht3⟩ := runSettingsTry_inv env prof tgt
    { s0 with applyChanges := false } (by simpa using hrev)
  simp only [updateDeviceSettings, percProp]
  repeat' split
  all_goals simp_all [afterPort_st, percProp, hrev]

theorem settingsAndFs_inv (env : Env) (prof : ProfileModel)
    (tgt : Target) (pcFw pcSet : Bool) (s : St)
    (hrev : s.settingsPercentsRev = []) :
    percProp (totalSteps prof tgt)
      (settingsAndFs env prof tgt pcFw pcSet s).1 := by
  have hu := updateDeviceSettings_inv env prof tgt pcFw pcSet s hrev
  simp only [settingsAndFs]
  split
  · rename_i s1 e heq
    rw [heq] at hu
    exact hu
  · rename_i s1 heq
    rw [heq] at hu
    repeat' split
    all_goals first
      | exact hu
      | exact percProp_congr _ _ _
          (updateFileSystem_frame env prof tgt pcFw pcSet s1).2.2.2.2.1
          (updateFileSystem_frame env prof tgt pcFw pcSet s1).2.2.1 hu

theorem bodyAfterParams_inv (env : Env) (prof : ProfileModel) (tgt : Target)
    (fw : Nat) (pcFw pcSet : Bool) (s : St)
    (hrev : s.settingsPercentsRev = []) :
    percProp (totalSteps prof tgt)
      (bodyAfterParams env prof tgt fw pcFw pcSet s).st := by
  simp only [bodyAfterParams]
  repeat' split
  all_goals first
    | exact settingsAndFs_inv env prof _ _ _ _ (by simp [hrev])
    | exact percProp_nil _ _ (by simp [hrev])

theorem runBody_inv (env : Env) (prof : ProfileModel) (tgt : Target)
    (s0 : St) (hrev : s0.settingsPercentsRev = []) :
    percProp (totalSteps prof tgt) (runBody env prof tgt s0).st := by
  cases tgt <;> simp only [runBody] <;> repeat' split
  all_goals first
    | exact bodyAfterParams_inv env prof _ _ _ _ _ (by simp [hrev])
    | exact percProp_nil _ _ (by simp [hrev])

theorem updateProfile_inv (env : Env) (prof : ProfileModel) (tgt : Target)
    (ct dt : Nat) (dOpen dApply : Bool) :
    percProp (totalSteps prof tgt)
      (updateProfile env prof tgt ct dt dOpen dApply).finalSt := by
  have hb := runBody_inv env prof tgt (initialSt dOpen dApply) rfl
  simp only [updateProfile]
  exact percProp_congr _ _ _
    (cleanupRun_frame _ _ _ _ _ _ _ _).2.1
    (cleanupRun_frame _ _ _ _ _ _ _ _).1 hb

/-- C4: for every run of the orchestrator, the settings-phase progress
percentages, in emission order, are strictly increasing (hence monotonically
non-decreasing, with a callback invocation only when the integer percentage
changes); every emitted value is `i * 100 / total` for some step index
`i ≤ total`, where `total` is the settings count plus 2, plus 1 more when a
reset step is added; and when 100 was emitted, an apply-changes (`AC`) write
call is on the settings-phase trace. (The source emits 100 before checking
the `AC` write's outcome, so the trailing conjunct is attempt, not
success — see the counterexample.) -/
theorem c4_settings_progress (env : Env) (prof : ProfileModel) (tgt : Target)
    (ct dt : Nat) (dOpen dApply : Bool) :
    List.Chain' (fun a b => a < b)
      (updateProfile env prof tgt ct dt dOpen dApply).finalSt.settingsPercentsRev.reverse ∧
    (∀ p ∈ (updateProfile env prof tgt ct dt dOpen dApply).finalSt.settingsPercentsRev,
      ∃ i, i ≤ totalSteps prof tgt ∧ p = i * 100 / totalSteps prof tgt) ∧
    (100 ∈ (updateProfile env prof tgt ct dt dOpen dApply).finalSt.settingsPercentsRev →
      ∃ w ∈ (updateProfile env prof tgt ct dt dOpen dApply).finalSt.settingsWrites,
        w.name = "AC") := by
  obtain ⟨a, b, c⟩ := updateProfile_inv env prof tgt ct dt dOpen dApply
  refine ⟨?_, b, c⟩
  rw [List.chain'_reverse]
  exact a

/-- C4 counterexample: in a run whose environment fails every `AC` write
(local device, the profile's one `ID` setting), 100 is emitted even though
no apply-changes write ever succeeded, and the run fails in the settings
phase — refuting the reading that 100 is emitted only after the
apply-changes write has succeeded. -/
theorem c4_counterexample :
    100 ∈ (updateProfile envAcFails profBase Target.localDevice 3 7 true
      true).finalSt.settingsPercentsRev ∧
    (∀ w ∈ (updateProfile envAcFails profBase Target.localDevice 3 7 true
        true).finalSt.settingsWrites, w.name = "AC" → w.ok = false) ∧
    (updateProfile envAcFails profBase Target.localDevice 3 7 true
      true).outcome = Outcome.fail UpdErr.updateSettings := by decide

theorem mem_append_singleton {w r : WriteRec} {l : List WriteRec}
    (h : w ∈ l ++ [r]) : w ∈ l ∨ w = r := by
  rcases List.mem_append.mp h with h | h
  · exact Or.inl h
  · exact Or.inr (List.mem_singleton.mp h)

theorem acWriteLoop_writes_names (env : Env) :
    ∀ (n : Nat) (s : St) (w : WriteRec),
      w ∈ (acWriteLoop env s n).1.settingsWrites →
      w ∈ s.settingsWrites ∨ w.name = "AC" := by
  intro n
  induction n with
  | zero => intro s w hw; exact Or.inl hw
  | succ m ih =>
    intro s w hw
    simp only [acWriteLoop] at hw
    by_cases hk : (setParamSettings env s "AC" []).2 = true
    · rw [if_pos hk] at hw
      rcases mem_append_singleton (by simpa [setParamSettings] using hw) with h | h
      · exact Or.inl h
      · exact Or.inr (by rw [h])
    · rw [if_neg hk] at hw
      rcases ih _ w hw with h | h
      · rcases mem_append_singleton (by simpa [setParamSettings] using h) with h2 | h2
        · exact Or.inl h2
        · exact Or.inr (by rw [h2])
      · exact Or.inr h

theorem settingsFinish_writes_names (env : Env) (num idx prev : Nat) (s : St)
    (w : WriteRec)
    (hw : w ∈ (settingsFinish env num idx prev s).1.settingsWrites) :
    w ∈ s.settingsWrites ∨ w.name = "WR" ∨ w.name = "AC" := by
  simp only [settingsFinish] at hw
  repeat' split at hw
  all_goals
    first
      | (rcases acWriteLoop_writes_names env 3 _ w hw with h | h
         · rcases mem_append_singleton
             (by simpa [setParamSettings, emitPercent] using h) with h2 | h2
           · exact Or.inl h2
           · exact Or.inr (Or.inl (by rw [h2]))
         · exact Or.inr (Or.inr h))
      | (rcases mem_append_singleton
            (by simpa [setParamSettings, emitPercent] using hw) with h2 | h2
         · exact Or.inl h2
         · exact Or.inr (Or.inl (by rw [h2])))

theorem settingsLoop_writes_ap (env : Env) (num : Nat) :
    ∀ (l : List ProfileSettingVal) (idx prev : Nat) (net cache : Bool)
      (s : St) (w : WriteRec),
      w ∈ (settingsLoop env true num l idx prev net cache s).st.settingsWrites →
      w ∈ s.settingsWrites ∨ w.name ≠ "AP" := by
  intro l
  induction l with
  | nil => intro idx prev net cache s w hw; exact Or.inl hw
  | cons q rest ih =>
    intro idx prev net cache s w hw
    by_cases hc : idx * 100 / num ≠ prev <;>
      [simp only [settingsLoop, if_pos hc] at hw;
       simp only [settingsLoop, if_neg hc] at hw] <;>
    · split at hw
      · rcases ih _ _ _ _ _ w hw with h | h
        · exact Or.inl (by simpa [emitPercent] using h)
        · exact Or.inr h
      · rename_i hcond
        have hnm : pyUpper q.name ≠ "AP" := by
          intro hx
          exact hcond ⟨by simp, hx⟩
        split at hw
        · rcases ih _ _ _ _ _ w hw with h | h
          · rcases mem_append_singleton
              (by simpa [setParamSettings, emitPercent] using h) with h2 | h2
            · exact Or.inl h2
            · exact Or.inr (by rw [h2]; exact hnm)
          · exact Or.inr h
        · rcases mem_append_singleton
            (by simpa [setParamSettings, emitPercent] using hw) with h2 | h2
          · exact Or.inl h2
          · exact Or.inr (by rw [h2]; exact hnm)

theorem settingsTryRest_writes_ap (env : Env) (prof : ProfileModel)
    (num idx prev : Nat) (net cache : Bool) (sIn : St) (w : WriteRec)
    (hw : w ∈ (settingsTryRest env prof Target.localDevice num idx prev net
      cache sIn).st.settingsWrites) :
    w ∈ sIn.settingsWrites ∨ w.name ≠ "AP" := by
  have hdec : decide (Target.localDevice ≠ Target.remoteDevice) = true := by
    decide
  simp only [settingsTryRest, hdec] at hw
  split at hw
  · rcases settingsFinish_writes_names env num _ _ _ w hw with h | h | h
    · rcases settingsLoop_writes_ap env num _ _ _ _ _ _ w h with h2 | h2
      · exact Or.inl h2
      · exact Or.inr h2
    · exact Or.inr (by rw [h]; decide)
    · exact Or.inr (by rw [h]; decide)
  · rcases settingsLoop_writes_ap env num _ _ _ _ _ _ w hw with h2 | h2
    · exact Or.inl h2
    · exact Or.inr h2

theorem runSettingsTry_writes_ap (env : Env) (prof : ProfileModel) (s0 : St)
    (w : WriteRec)
    (hw : w ∈ (runSettingsTry env prof Target.localDevice
      s0).st.settingsWrites) :
    w ∈ s0.settingsWrites ∨ w.name ≠ "AP" ∨
      w.value = [env.opModeAtSettings] := by
  simp only [runSettingsTry] at hw
  by_cases hr : prof.resetSettings = true ∨
      Target.localDevice = Target.serialPort
  · rw [if_pos hr] at hw
    set num := prof.profileSettings.length + 3 with hnumdef
    by_cases hc : 1 * 100 / num ≠ 0 <;>
      [rw [if_pos hc] at hw; rw [if_neg hc] at hw] <;>
    · split at hw
      · split at hw
        · split at hw
          · rcases settingsTryRest_writes_ap env prof num 2 _ true true _ w hw
              with h | h
            · simp [setParamSettings, emitPercent] at h
              rcases h with h2 | h2 | h2
              · exact Or.inl h2
              · exact Or.inr (Or.inl (by simp [h2]))
              · exact Or.inr (Or.inr (by rw [h2]))
            · exact Or.inr (Or.inl h)
          · simp [setParamSettings, emitPercent] at hw
            rcases hw with h2 | h2 | h2
            · exact Or.inl h2
            · exact Or.inr (Or.inl (by simp [h2]))
            · exact Or.inr (Or.inr (by rw [h2]))
        · rename_i hcond
          exact absurd (by decide) hcond
      · simp [setParamSettings, emitPercent] at hw
        rcases hw with h2 | h2
        · exact Or.inl h2
        · exact Or.inr (Or.inl (by simp [h2]))
  · rw [if_neg hr] at hw
    rcases settingsTryRest_writes_ap env prof _ 1 0 false false _ w hw
      with h | h
    · exact Or.inl (by simpa [emitPercent] using h)
    · exact Or.inr (Or.inl h)


theorem apProp_congr {env : Env} {s t : St}
    (h : t.settingsWrites = s.settingsWrites) :
    apProp env s → apProp env t := by
  intro hp w hw
  exact hp w (h ▸ hw)

theorem runSettingsTry_ap (env : Env) (prof : ProfileModel) (s0 : St)
    (h0 : apProp env s0) :
    apProp env (runSettingsTry env prof Target.localDevice s0).st := by
  intro w hw hname
  rcases runSettingsTry_writes_ap env prof s0 w hw with h | h | h
  · exact h0 w h hname
  · exact absurd hname h
  · exact h

theorem updateDeviceSettings_ap (env : Env) (prof : ProfileModel)
    (pcFw pcSet : Bool) (s0 : St) (h0 : apProp env s0) :
    apProp env
      (updateDeviceSettings env prof Target.localDevice pcFw pcSet s0).1 := by
  have ht := runSettingsTry_ap env prof { s0 with applyChanges := false }
    (apProp_congr rfl h0)
  simp only [updateDeviceSettings]
  repeat' split
  all_goals first
    | exact h0
    | exact apProp_congr (by simp [afterPort_st]) ht

theorem settingsAndFs_ap (env : Env) (prof : ProfileModel)
    (pcFw pcSet : Bool) (s : St) (h0 : apProp env s) :
    apProp env (settingsAndFs env prof Target.localDevice pcFw pcSet s).1 := by
  have hu := updateDeviceSettings_ap env prof pcFw pcSet s h0
  simp only [settingsAndFs]
  split
  · rename_i s1 e heq
    rw [heq] at hu
    exact hu
  · rename_i s1 heq
    rw [heq] at hu
    repeat' split
    all_goals first
      | exact hu
      | exact apProp_congr
          (updateFileSystem_frame env prof Target.localDevice pcFw pcSet s1).2.2.1 hu

theorem bodyAfterParams_ap (env : Env) (prof : ProfileModel) (fw : Nat)
    (pcFw pcSet : Bool) (s : St) (h0 : apProp env s) :
    apProp env
      (bodyAfterParams env prof Target.localDevice fw pcFw pcSet s).st := by
  simp only [bodyAfterParams]
  repeat' split
  all_goals first
    | exact h0
    | exact apProp_congr rfl h0
    | exact settingsAndFs_ap env prof _ _ _ (apProp_congr rfl h0)

theorem runBody_ap (env : Env) (prof : ProfileModel) (s0 : St)
    (h0 : apProp env s0) :
    apProp env (runBody env prof Target.localDevice s0).st := by
  simp only [runBody]
  repeat' split
  all_goals first
    | exact h0
    | exact apProp_congr rfl h0
    | exact bodyAfterParams_ap env prof _ _ _ _ (apProp_congr rfl h0)

theorem updateProfile_ap (env : Env) (prof : ProfileModel) (ct dt : Nat)
    (dOpen dApply : Bool) :
    apProp env
      (updateProfile env prof Target.localDevice ct dt dOpen dApply).finalSt := by
  have hb := runBody_ap env prof (initialSt dOpen dApply)
    (by intro w hw; simp [initialSt] at hw)
  simp only [updateProfile]
  exact apProp_congr (cleanupRun_frame _ _ _ _ _ _ _ _).1 hb

theorem apRestoreCond_iff (mode b : Nat) (bs : List Nat) :
    apRestoreCond true mode (some (b :: bs)) = true ↔
      b ≠ mode ∧ (b = 1 ∨ b = 2) := by
  simp [apRestoreCond]

theorem cleanupApRestore_noCond (env : Env) (isLocal : Bool) (s : St)
    (h : apRestoreCond isLocal env.opModeAtCleanup s.xproAp = false) :
    cleanupApRestore env isLocal s = (s, true) := by
  simp [cleanupApRestore, h]

theorem cleanupApRestore_writes (env : Env) (s : St) (b : Nat)
    (bs : List Nat) (hx : s.xproAp = some (b :: bs))
    (hcond : apRestoreCond true env.opModeAtCleanup s.xproAp = true)
    (hw1 : env.writeOk s.writeIdx = true)
    (hw2 : env.writeOk (s.writeIdx + 1) = true) :
    (cleanupApRestore env true s).1.cleanupWrites =
      s.cleanupWrites ++ [⟨"AP", b :: bs, true⟩, ⟨"WR", [], true⟩] ∧
    (cleanupApRestore env true s).1.applyChanges = s.applyChanges ∧
    (cleanupApRestore env true s).2 = true := by
  simp only [cleanupApRestore, if_pos hcond, setParamCleanup]
  simp [hx, hw1, hw2]

/-- C7: on a local-device target the profile's operating-mode (`AP`) byte
value is never written during the settings phase — the only `AP` write that
can appear on the settings-phase trace is the restore-defaults step's
immediate re-write of the device's current operating mode (the withheld
value lands in `_xpro_ap` instead); and the cleanup phase writes the
withheld value if and only if it is a non-empty byte sequence whose first
byte differs from the device's current operating mode and is one of the two
valid API framing modes 1 and 2 — when the condition fails the state is
left untouched, and when it holds (and the writes go through) the cleanup
trace gains exactly the `AP` write followed by a `WR` write-to-nonvolatile,
with the auto-apply flag restored afterwards. (The reset step stores the
AT-mode code 0, not the current mode — see the counterexample.) -/
theorem c7_ap_deferred (env : Env) (prof : ProfileModel) (ct dt : Nat)
    (dOpen dApply : Bool) (s : St) (b : Nat) (bs : List Nat) :
    (∀ w ∈ (updateProfile env prof Target.localDevice ct dt dOpen
        dApply).finalSt.settingsWrites,
      w.name = "AP" → w.value = [env.opModeAtSettings]) ∧
    (s.xproAp = some (b :: bs) →
      (apRestoreCond true env.opModeAtCleanup s.xproAp = true ↔
        b ≠ env.opModeAtCleanup ∧ (b = 1 ∨ b = 2))) ∧
    (apRestoreCond true env.opModeAtCleanup s.xproAp = false →
      cleanupApRestore env true s = (s, true)) ∧
    (s.xproAp = some (b :: bs) →
      apRestoreCond true env.opModeAtCleanup s.xproAp = true →
      env.writeOk s.writeIdx = true → env.writeOk (s.writeIdx + 1) = true →
      (cleanupApRestore env true s).1.cleanupWrites =
        s.cleanupWrites ++ [⟨"AP", b :: bs, true⟩, ⟨"WR", [], true⟩] ∧
      (cleanupApRestore env true s).1.applyChanges = s.applyChanges) := by
  refine ⟨updateProfile_ap env prof ct dt dOpen dApply, ?_,
    cleanupApRestore_noCond env true s, ?_⟩
  · intro hx
    rw [hx, apRestoreCond_iff]
  · intro hx hcond hw1 hw2
    exact ⟨(cleanupApRestore_writes env s b bs hx hcond hw1 hw2).1,
      (cleanupApRestore_writes env s b bs hx hcond hw1 hw2).2.1⟩

/-- C7 counterexample: a restore-defaults run on a local device whose
current operating mode is 1 stores the AT-mode code 0 in `_xpro_ap` (not
the current mode), and an `AP` write carrying the current mode appears on
the settings-phase trace — refuting the reading that a reset remembers the
current mode and that `AP` is never written before the cleanup phase. -/
theorem c7_counterexample :
    (updateProfile envOk profReset Target.localDevice 3 7 true
      true).finalSt.xproAp = some [0] ∧
    envOk.opModeAtSettings = 1 ∧
    (⟨"AP", [1], true⟩ : WriteRec) ∈
      (updateProfile envOk profReset Target.localDevice 3 7 true
        true).finalSt.settingsWrites := by decide

/-- At concrete inputs: the condition characterization for withheld byte 2
against current mode 1, the untouched state when nothing was withheld, the
cleanup `AP`/`WR` writes for withheld byte 2 with auto-apply restored, and
the settings-phase `AP` write of a reset run carrying the current mode. -/
theorem c7_witness :
    ((2 : Nat) ≠ envOk.opModeAtCleanup ∧ ((2 : Nat) = 1 ∨ (2 : Nat) = 2)) ∧
    cleanupApRestore envOk true (initialSt true true) =
      (initialSt true true, true) ∧
    ((cleanupApRestore envOk true stW).1.cleanupWrites =
      stW.cleanupWrites ++ [⟨"AP", [2], true⟩, ⟨"WR", [], true⟩] ∧
     (cleanupApRestore envOk true stW).1.applyChanges = stW.applyChanges) ∧
    (⟨"AP", [1], true⟩ : WriteRec).value = [envOk.opModeAtSettings] :=
  ⟨((c7_ap_deferred envOk profBase 3 7 true true stW 2 []).2.1
      (by decide)).mp (by decide),
   (c7_ap_deferred envOk profBase 3 7 true true (initialSt true true) 0
      []).2.2.1 (by decide),
   (c7_ap_deferred envOk profBase 3 7 true true stW 2 []).2.2.2 (by decide)
      (by decide) (by decide) (by decide),
   (c7_ap_deferred envOk profReset 3 7 true true stW 2 []).1
      ⟨"AP", [1], true⟩ (by decide) (by decide)⟩
